import Mathlib

/-!
Botica Nova Salud: the sales ledger of `nova-salud-backend/index.js`

A shallow embedding of the three sales endpoints (`POST /ventas`,
`PUT /ventas/:id`, `DELETE /ventas/:id`) and of `DELETE /productos/:id`,
over an explicit model of the in-memory SQLite store.

Conventions of the embedding

* A table is the list of its rows, in insertion order.  `db.get` returns the
  first row that matches, `UPDATE` and `DELETE` act on every row that matches.
* SQLite integers and the JSON integers of a request body are `Int`, unbounded:
  all values are taken in the range where a JavaScript number and a SQLite
  integer agree.
* The handlers are embedded twice.  `postVentas`, `putVentas` and `deleteVentas`
  are the handlers on bodies whose fields are integers or absent (`Option Int`:
  `none` is `undefined` in the handler) and on rows whose cells are integers.
  `postVentasJs`, `putVentasJs` and `deleteVentasJs` are the same handlers when
  a body field may also be a JSON string that is not a numeral, with the
  JavaScript coercions of `!`, `<=`, `<` and `-` and the SQLite conversions of
  a bound parameter; `postVentasJs_entero`, `putVentasJs_entero` and
  `deleteVentasJs_entero` prove that the two agree on integer bodies and
  cells.  Fractions, booleans, arrays, objects and strings of another form
  are in neither.
* Row ids come from `INTEGER PRIMARY KEY AUTOINCREMENT`: they are distinct within
  a table and never 0.  Theorems that depend on it say so in a hypothesis.
* The path parameter `:id` is the integer it denotes.
* `CURRENT_TIMESTAMP` is the argument `now` of the request.
* Every handler takes `fault : Option Nat`: `some k` says that the `k`-th store
  statement the handler issues (counted from 0, in program order) calls back
  with an error; `none` says that no statement fails.  A failing statement has
  no effect on the store, the effects of the statements before it stay: the
  handlers open no transaction.
-/

namespace NovaSalud

/-- Row of `categorias (id, nombre)`. -/
structure Categoria where
  id : Int
  nombre : String
deriving DecidableEq, Repr

/-- Row of `productos (id, nombre, descripcion, precio, stock, categoria_id)`.
The price is kept in hundredths; no handler computes with it. -/
structure Producto where
  id : Int
  nombre : String
  descripcion : String
  precio : Nat
  stock : Int
  categoria_id : Int
deriving DecidableEq, Repr

/-- Row of `ventas (id, producto_id, cantidad, fecha)`. -/
structure Venta where
  id : Int
  producto_id : Int
  cantidad : Int
  fecha : Nat
deriving DecidableEq, Repr

/-- The database `db`: the three tables and the AUTOINCREMENT counter of
`ventas` (the largest row id the table has ever held). -/
structure Store where
  categorias : List Categoria
  productos : List Producto
  ventas : List Venta
  seq : Int
deriving DecidableEq, Repr

/-- The responses the handlers send, one constructor for each
`res.status(..).json(..)` / `res.json(..)` of the source. -/
inductive Resp where
  /-- Status 400, `Datos de venta inválidos` -/
  | datosInvalidos
  /-- Status 400, `Cantidad inválida` -/
  | cantidadInvalida
  /-- Status 500 with `err.message` -/
  | storeError
  /-- Status 404, `Producto no encontrado` -/
  | productoNoEncontrado
  /-- Status 404, `Venta no encontrada` -/
  | ventaNoEncontrada
  /-- Status 400, `Stock insuficiente de ${producto.nombre}` -/
  | stockInsuficiente (nombre : String)
  /-- Status 400, `Stock insuficiente para aumentar la cantidad` -/
  | stockInsuficienteAumentar
  /-- Status 200, `Venta registrada: ${cantidad} unidad(es) de ${producto.nombre}` -/
  | ventaRegistrada (cantidad : Int) (nombre : String)
  /-- Status 200, `Venta eliminada correctamente y stock actualizado` -/
  | ventaEliminada
  /-- Status 200, `Venta actualizada correctamente` -/
  | ventaActualizada
  /-- Status 200, `Producto eliminado correctamente` -/
  | productoEliminado
deriving DecidableEq, Repr

/-- HTTP status of a response (`res.json` without `res.status` answers 200). -/
def Resp.status : Resp → Nat
  | .datosInvalidos => 400
  | .cantidadInvalida => 400
  | .storeError => 500
  | .productoNoEncontrado => 404
  | .ventaNoEncontrada => 404
  | .stockInsuficiente _ => 400
  | .stockInsuficienteAumentar => 400
  | .ventaRegistrada _ _ => 200
  | .ventaEliminada => 200
  | .ventaActualizada => 200
  | .productoEliminado => 200

namespace Store

/-- Statement `SELECT .. FROM productos WHERE id = ?` through `db.get`: the first match. -/
def getProducto (s : Store) (id : Int) : Option Producto :=
  s.productos.find? (fun p => p.id == id)

/-- Statement `SELECT * FROM ventas WHERE id = ?` through `db.get`: the first match. -/
def getVenta (s : Store) (id : Int) : Option Venta :=
  s.ventas.find? (fun v => v.id == id)

/-- Statement `INSERT INTO ventas (producto_id, cantidad) VALUES (?, ?)`: the new row takes
the next AUTOINCREMENT id and the current timestamp. -/
def insertVenta (s : Store) (producto_id cantidad : Int) (now : Nat) : Store :=
  { s with
    ventas := s.ventas ++ [{ id := s.seq + 1, producto_id := producto_id,
                             cantidad := cantidad, fecha := now }]
    seq := s.seq + 1 }

/-- Statement `UPDATE productos SET stock = stock - ? WHERE id = ?`. -/
def restarStock (s : Store) (n id : Int) : Store :=
  { s with productos :=
      s.productos.map (fun p => if p.id = id then { p with stock := p.stock - n } else p) }

/-- Statement `UPDATE productos SET stock = stock + ? WHERE id = ?`. -/
def sumarStock (s : Store) (n id : Int) : Store :=
  { s with productos :=
      s.productos.map (fun p => if p.id = id then { p with stock := p.stock + n } else p) }

/-- Statement `DELETE FROM ventas WHERE id = ?`. -/
def deleteVenta (s : Store) (id : Int) : Store :=
  { s with ventas := s.ventas.filter (fun v => v.id != id) }

/-- Statement `UPDATE ventas SET cantidad = ? WHERE id = ?`. -/
def setCantidad (s : Store) (cantidad id : Int) : Store :=
  { s with ventas :=
      s.ventas.map (fun v => if v.id = id then { v with cantidad := cantidad } else v) }

/-- Statement `DELETE FROM productos WHERE id = ?`. -/
def deleteProducto (s : Store) (id : Int) : Store :=
  { s with productos := s.productos.filter (fun p => p.id != id) }

/-- Stock of the product with the given id, when there is one. -/
def stock? (s : Store) (id : Int) : Option Int :=
  (s.getProducto id).map (fun p => p.stock)

/-- Sum of the quantities of the sales that reference the product. -/
def vendido (s : Store) (producto_id : Int) : Int :=
  ((s.ventas.filter (fun v => v.producto_id == producto_id)).map (fun v => v.cantidad)).sum

end Store

/-- The store after the `db.serialize` block at start-up: the four categories,
the eight products, no sale. -/
def seed : Store where
  categorias :=
    [ ⟨1, "Analgésicos"⟩, ⟨2, "Antibióticos"⟩, ⟨3, "Vitaminas"⟩, ⟨4, "Cuidado Personal"⟩ ]
  productos :=
    [ ⟨1, "Paracetamol", "Medicamento analgésico", 50, 100, 1⟩,
      ⟨2, "Ibuprofeno", "Medicamento antiinflamatorio", 75, 1, 1⟩,
      ⟨3, "Amoxicilina", "Antibiótico penicilínico", 120, 80, 2⟩,
      ⟨4, "Loratadina", "Antihistamínico para alergias", 65, 120, 2⟩,
      ⟨5, "Multivitamínico", "Vitaminas diarias", 70, 150, 3⟩,
      ⟨6, "Metformina", "Medicamento para diabetes", 90, 60, 3⟩,
      ⟨7, "Jabón Liquido", "Cuidado personal", 100, 200, 4⟩,
      ⟨8, "Crema Antiséptica", "Cuidado personal", 110, 90, 4⟩ ]
  ventas := []
  seq := 0

/-- Handler `app.post('/ventas')`.  The guard is
`!producto_id || !cantidad || cantidad <= 0`: an absent field and the number 0
are falsy.  Store statements: 0 the `SELECT` of the product, 1 the `INSERT` of
the sale, 2 the `UPDATE` of the stock. -/
def postVentas (fault : Option Nat) (now : Nat) (producto_id cantidad : Option Int)
    (s : Store) : Resp × Store :=
  match producto_id, cantidad with
  | some pid, some q =>
    if pid = 0 ∨ q = 0 ∨ q ≤ 0 then (.datosInvalidos, s)
    else if fault = some 0 then (.storeError, s)
    else
      match s.getProducto pid with
      | none => (.productoNoEncontrado, s)
      | some producto =>
        if producto.stock < q then (.stockInsuficiente producto.nombre, s)
        else if fault = some 1 then (.storeError, s)
        else
          let s1 := s.insertVenta pid q now
          if fault = some 2 then (.storeError, s1)
          else (.ventaRegistrada q producto.nombre, s1.restarStock q pid)
  | _, _ => (.datosInvalidos, s)

/-- Handler `app.delete('/ventas/:id')`.  Store statements: 0 the `SELECT` of the sale,
1 the `SELECT` of its product, 2 the `DELETE` of the sale, 3 the `UPDATE` of the
stock. -/
def deleteVentas (fault : Option Nat) (id : Int) (s : Store) : Resp × Store :=
  if fault = some 0 then (.storeError, s)
  else
    match s.getVenta id with
    | none => (.ventaNoEncontrada, s)
    | some venta =>
      if fault = some 1 then (.storeError, s)
      else
        match s.getProducto venta.producto_id with
        | none => (.productoNoEncontrado, s)
        | some producto =>
          if fault = some 2 then (.storeError, s)
          else
            let s1 := s.deleteVenta id
            if fault = some 3 then (.storeError, s1)
            else (.ventaEliminada, s1.sumarStock venta.cantidad producto.id)

/-- Handler `app.put('/ventas/:id')`.  The guard is `!cantidad || cantidad <= 0`.  Store
statements: 0 the `SELECT` of the sale, 1 the `SELECT` of its product, 2 the
`UPDATE` of the sale, 3 the `UPDATE` of the stock. -/
def putVentas (fault : Option Nat) (id : Int) (cantidad : Option Int) (s : Store) :
    Resp × Store :=
  match cantidad with
  | none => (.cantidadInvalida, s)
  | some q =>
    if q = 0 ∨ q ≤ 0 then (.cantidadInvalida, s)
    else if fault = some 0 then (.storeError, s)
    else
      match s.getVenta id with
      | none => (.ventaNoEncontrada, s)
      | some venta =>
        if fault = some 1 then (.storeError, s)
        else
          match s.getProducto venta.producto_id with
          | none => (.productoNoEncontrado, s)
          | some producto =>
            let diferencia := q - venta.cantidad
            if producto.stock < diferencia then (.stockInsuficienteAumentar, s)
            else if fault = some 2 then (.storeError, s)
            else
              let s1 := s.setCantidad q id
              if fault = some 3 then (.storeError, s1)
              else (.ventaActualizada, s1.restarStock diferencia producto.id)

/-- Handler `app.delete('/productos/:id')`.  Store statements: 0 the `SELECT`, 1 the
`DELETE`. -/
def deleteProductos (fault : Option Nat) (id : Int) (s : Store) : Resp × Store :=
  if fault = some 0 then (.storeError, s)
  else
    match s.getProducto id with
    | none => (.productoNoEncontrado, s)
    | some _ =>
      if fault = some 1 then (.storeError, s)
      else (.productoEliminado, s.deleteProducto id)

/-- A request to one of the three sales endpoints whose body fields are integers
or absent. -/
inductive ReqEntero where
  /-- Request `POST /ventas` with body `{producto_id, cantidad}`, served at time `now` -/
  | registrar (now : Nat) (producto_id cantidad : Option Int)
  /-- Request `PUT /ventas/:id` with body `{cantidad}` -/
  | actualizar (id : Int) (cantidad : Option Int)
  /-- Request `DELETE /ventas/:id` -/
  | eliminar (id : Int)
deriving DecidableEq, Repr

/-- One such request run to completion with no store error. -/
def ReqEntero.exec (r : ReqEntero) (s : Store) : Resp × Store :=
  match r with
  | .registrar now producto_id cantidad => postVentas none now producto_id cantidad s
  | .actualizar id cantidad => putVentas none id cantidad s
  | .eliminar id => deleteVentas none id s

/-- A sequence of such requests, each run to completion before the next starts. -/
def runEntero (rs : List ReqEntero) (s : Store) : Store :=
  rs.foldl (fun st r => (r.exec st).2) s

/-! ## Example stores -/

/-- The seeded store after one sale of 10 units of Paracetamol: stock 90, one
sale row of quantity 10. -/
def ejemploVenta : Store :=
  (postVentas none 0 (some 1) (some 10) seed).2

/-- The store `ejemploVenta` after a second sale takes the 90 units left:
Paracetamol has stock 0, sale 1 has quantity 10. -/
def ejemploAgotado : Store :=
  (postVentas none 1 (some 1) (some 90) ejemploVenta).2

/-- The store `ejemploVenta` after `DELETE /productos/1`: sale 1 references a
product that no longer exists. -/
def ejemploHuerfana : Store :=
  (deleteProductos none 1 ejemploVenta).2

/-- A store whose only product has stock -1, with one sale of quantity 10. -/
def ejemploNegativo : Store where
  categorias := []
  productos := [⟨1, "Paracetamol", "Medicamento analgésico", 50, -1, 1⟩]
  ventas := [⟨1, 1, 10, 0⟩]
  seq := 1

/-! ## Bodies and cells that are not integers

The handlers never test the type of a body field, so `cantidad` may arrive as a
JSON string.  The definitions below follow the same handlers when a body field
is a string that is not a numeral, and the cells such a request leaves in the
store: `TEXT` in `ventas.cantidad`, `NULL` in `productos.stock`. -/

/-- A letter that cannot continue a numeric literal after a run of digits (`e`
starts an exponent; `x`, `o`, `b` follow `0` in a hexadecimal, octal or binary
literal). -/
def letraSegura (c : Char) : Bool :=
  c.isAlpha &&
    !(c == 'e' || c == 'E' || c == 'x' || c == 'X' || c == 'o' || c == 'O' ||
      c == 'b' || c == 'B')

/-- The strings made of one or more decimal digits, then such a letter, then
anything, as `1000abc`.  For JavaScript, `Number(s)` is `NaN`; for SQLite, `s` is
not a well-formed numeral, and where a number is needed its value is that of
the leading digits. -/
def noNumerica (s : String) : Bool :=
  match s.data with
  | [] => false
  | c :: cs =>
    c.isDigit &&
      match (c :: cs).dropWhile Char.isDigit with
      | [] => false
      | d :: _ => letraSegura d

/-- A JSON string of that form. -/
structure Texto where
  s : String
  ok : noNumerica s = true

/-- The value SQLite gives the text in arithmetic: that of its leading digits. -/
def Texto.prefijo (t : Texto) : Int :=
  ((t.s.data.takeWhile Char.isDigit).foldl (fun n c => 10 * n + (c.toNat - 48)) 0 : Nat)

/-- The JavaScript values the handlers meet: body fields (`undefined` when
absent, an integer, a string), row fields (`null`, an integer, a string) and
the results of `-` (`NaN` or an integer). -/
inductive JsVal where
  | undefined
  | null
  | nan
  | num (n : Int)
  | str (t : Texto)

namespace JsVal

/-- The operand of `!`: `undefined`, `null`, `NaN` and `0` are falsy; a string of
`Texto` is not empty, so it is truthy. -/
def falsy : JsVal → Bool
  | .undefined => true
  | .null => true
  | .nan => true
  | .num n => n == 0
  | .str _ => false

/-- JavaScript `Number(v)`, with `none` for `NaN`. -/
def toNumber : JsVal → Option Int
  | .undefined => none
  | .null => some 0
  | .nan => none
  | .num n => some n
  | .str _ => none

/-- JavaScript `a < b` where at most one side is a string: both sides go through
`Number`, and a comparison with `NaN` is false. -/
def lt (a b : JsVal) : Bool :=
  match a.toNumber, b.toNumber with
  | some x, some y => x < y
  | _, _ => false

/-- JavaScript `a <= b` where at most one side is a string. -/
def le (a b : JsVal) : Bool :=
  match a.toNumber, b.toNumber with
  | some x, some y => x ≤ y
  | _, _ => false

/-- JavaScript `a - b`. -/
def sub (a b : JsVal) : JsVal :=
  match a.toNumber, b.toNumber with
  | some x, some y => .num (x - y)
  | _, _ => .nan

end JsVal

/-- A cell of an `INTEGER` column: `NULL`, an integer, or a text that is not a
numeral (column affinity converts only well-formed numerals). -/
inductive Celda where
  | null
  | int (n : Int)
  | text (t : Texto)

/-- The cell a bound parameter becomes: an integer number is bound as `INTEGER`, a
string as `TEXT`; `NaN` is bound as a double and SQLite stores it as `NULL`.  The
guards let no `undefined` or `null` reach a statement. -/
def JsVal.bind : JsVal → Celda
  | .undefined => .null
  | .null => .null
  | .nan => .null
  | .num n => .int n
  | .str t => .text t

/-- The JavaScript value of a cell in a row that `db.get` returns. -/
def Celda.toJs : Celda → JsVal
  | .null => .null
  | .int n => .num n
  | .text t => .str t

/-- The number a cell stands for as an operand of SQL `+` and `-`; `none` is
`NULL`. -/
def Celda.numero : Celda → Option Int
  | .null => none
  | .int n => some n
  | .text t => some t.prefijo

/-- SQL `a - b`: `NULL` when an operand is `NULL`. -/
def sqlResta (a : Option Int) (b : Celda) : Option Int :=
  match a, b.numero with
  | some x, some y => some (x - y)
  | _, _ => none

/-- SQL `a + b`: `NULL` when an operand is `NULL`. -/
def sqlSuma (a : Option Int) (b : Celda) : Option Int :=
  match a, b.numero with
  | some x, some y => some (x + y)
  | _, _ => none

/-- Row of `productos` whose `stock` may be `NULL` (`none`).  The column is written
by the seed and by SQL arithmetic only, so it holds no text. -/
structure JsProducto where
  id : Int
  nombre : String
  descripcion : String
  precio : Nat
  stock : Option Int
  categoria_id : Int

/-- Row of `ventas` whose `cantidad` is any cell. -/
structure JsVenta where
  id : Int
  producto_id : Int
  cantidad : Celda
  fecha : Nat

/-- The database with such rows. -/
structure JsStore where
  categorias : List Categoria
  productos : List JsProducto
  ventas : List JsVenta
  seq : Int

/-- The JavaScript value of `producto.stock`. -/
def JsProducto.stockJs (p : JsProducto) : JsVal :=
  match p.stock with
  | none => .null
  | some n => .num n

namespace JsStore

/-- Statement `SELECT .. FROM productos WHERE id = ?` through `db.get`. -/
def getProducto (s : JsStore) (id : Int) : Option JsProducto :=
  s.productos.find? (fun p => p.id == id)

/-- Statement `SELECT * FROM ventas WHERE id = ?` through `db.get`. -/
def getVenta (s : JsStore) (id : Int) : Option JsVenta :=
  s.ventas.find? (fun v => v.id == id)

/-- Statement `INSERT INTO ventas (producto_id, cantidad) VALUES (?, ?)`. -/
def insertVenta (s : JsStore) (producto_id : Int) (cantidad : Celda) (now : Nat) : JsStore :=
  { s with
    ventas := s.ventas ++ [{ id := s.seq + 1, producto_id := producto_id,
                             cantidad := cantidad, fecha := now }]
    seq := s.seq + 1 }

/-- Statement `UPDATE productos SET stock = stock - ? WHERE id = ?`. -/
def restarStock (s : JsStore) (n : Celda) (id : Int) : JsStore :=
  { s with productos :=
      s.productos.map (fun p => if p.id = id then { p with stock := sqlResta p.stock n } else p) }

/-- Statement `UPDATE productos SET stock = stock + ? WHERE id = ?`. -/
def sumarStock (s : JsStore) (n : Celda) (id : Int) : JsStore :=
  { s with productos :=
      s.productos.map (fun p => if p.id = id then { p with stock := sqlSuma p.stock n } else p) }

/-- Statement `DELETE FROM ventas WHERE id = ?`. -/
def deleteVenta (s : JsStore) (id : Int) : JsStore :=
  { s with ventas := s.ventas.filter (fun v => v.id != id) }

/-- Statement `UPDATE ventas SET cantidad = ? WHERE id = ?`. -/
def setCantidad (s : JsStore) (cantidad : Celda) (id : Int) : JsStore :=
  { s with ventas :=
      s.ventas.map (fun v => if v.id = id then { v with cantidad := cantidad } else v) }

/-- Stock cell of the product with the given id, when there is one; `some none` is
a stock that is `NULL`. -/
def stock? (s : JsStore) (id : Int) : Option (Option Int) :=
  (s.getProducto id).map (fun p => p.stock)

/-- The quantity cells of the sales that reference the product. -/
def cantidades (s : JsStore) (producto_id : Int) : List Celda :=
  (s.ventas.filter (fun v => v.producto_id == producto_id)).map (fun v => v.cantidad)

end JsStore

/-- The responses of the handlers, as `Resp`, with the quantity of
`Venta registrada` any JavaScript value. -/
inductive JsResp where
  /-- Status 400, `Datos de venta inválidos` -/
  | datosInvalidos
  /-- Status 400, `Cantidad inválida` -/
  | cantidadInvalida
  /-- Status 500 with `err.message` -/
  | storeError
  /-- Status 404, `Producto no encontrado` -/
  | productoNoEncontrado
  /-- Status 404, `Venta no encontrada` -/
  | ventaNoEncontrada
  /-- Status 400, `Stock insuficiente de ${producto.nombre}` -/
  | stockInsuficiente (nombre : String)
  /-- Status 400, `Stock insuficiente para aumentar la cantidad` -/
  | stockInsuficienteAumentar
  /-- Status 200, `Venta registrada: ${cantidad} unidad(es) de ${producto.nombre}` -/
  | ventaRegistrada (cantidad : JsVal) (nombre : String)
  /-- Status 200, `Venta eliminada correctamente y stock actualizado` -/
  | ventaEliminada
  /-- Status 200, `Venta actualizada correctamente` -/
  | ventaActualizada

/-- HTTP status of a response. -/
def JsResp.status : JsResp → Nat
  | .datosInvalidos => 400
  | .cantidadInvalida => 400
  | .storeError => 500
  | .productoNoEncontrado => 404
  | .ventaNoEncontrada => 404
  | .stockInsuficiente _ => 400
  | .stockInsuficienteAumentar => 400
  | .ventaRegistrada _ _ => 200
  | .ventaEliminada => 200
  | .ventaActualizada => 200

/-- Handler `app.post('/ventas')` on any body.  The guard is
`!producto_id || !cantidad || cantidad <= 0`; a `producto_id` that passes it is an
integer or a string that is not a numeral, and such a string equals no
`INTEGER` key.  The test `producto.stock < cantidad` is a JavaScript `<`, the
`INSERT` binds `cantidad` as it came, the `UPDATE` computes `stock - ?` in SQL.
Store statements are numbered as in `postVentas`. -/
def postVentasJs (fault : Option Nat) (now : Nat) (producto_id cantidad : JsVal)
    (s : JsStore) : JsResp × JsStore :=
  if producto_id.falsy || cantidad.falsy || cantidad.le (.num 0) then (.datosInvalidos, s)
  else if fault = some 0 then (.storeError, s)
  else
    match producto_id with
    | .num pid =>
      match s.getProducto pid with
      | none => (.productoNoEncontrado, s)
      | some producto =>
        if producto.stockJs.lt cantidad then (.stockInsuficiente producto.nombre, s)
        else if fault = some 1 then (.storeError, s)
        else
          let s1 := s.insertVenta pid cantidad.bind now
          if fault = some 2 then (.storeError, s1)
          else (.ventaRegistrada cantidad producto.nombre, s1.restarStock cantidad.bind pid)
    | _ => (.productoNoEncontrado, s)

/-- Handler `app.delete('/ventas/:id')` on any store: the `UPDATE` binds
`venta.cantidad` as the row holds it and computes `stock + ?` in SQL. -/
def deleteVentasJs (fault : Option Nat) (id : Int) (s : JsStore) : JsResp × JsStore :=
  if fault = some 0 then (.storeError, s)
  else
    match s.getVenta id with
    | none => (.ventaNoEncontrada, s)
    | some venta =>
      if fault = some 1 then (.storeError, s)
      else
        match s.getProducto venta.producto_id with
        | none => (.productoNoEncontrado, s)
        | some producto =>
          if fault = some 2 then (.storeError, s)
          else
            let s1 := s.deleteVenta id
            if fault = some 3 then (.storeError, s1)
            else (.ventaEliminada, s1.sumarStock venta.cantidad.toJs.bind producto.id)

/-- Handler `app.put('/ventas/:id')` on any body and store.  The guard is
`!cantidad || cantidad <= 0`; `diferencia` is the JavaScript
`cantidad - venta.cantidad`, which is `NaN` when either side is a string that is
not a numeral; the test `producto.stock < diferencia` is a JavaScript `<`; the
first `UPDATE` binds `cantidad` as it came, the second binds `diferencia`. -/
def putVentasJs (fault : Option Nat) (id : Int) (cantidad : JsVal) (s : JsStore) :
    JsResp × JsStore :=
  if cantidad.falsy || cantidad.le (.num 0) then (.cantidadInvalida, s)
  else if fault = some 0 then (.storeError, s)
  else
    match s.getVenta id with
    | none => (.ventaNoEncontrada, s)
    | some venta =>
      if fault = some 1 then (.storeError, s)
      else
        match s.getProducto venta.producto_id with
        | none => (.productoNoEncontrado, s)
        | some producto =>
          let diferencia := cantidad.sub venta.cantidad.toJs
          if producto.stockJs.lt diferencia then (.stockInsuficienteAumentar, s)
          else if fault = some 2 then (.storeError, s)
          else
            let s1 := s.setCantidad cantidad.bind id
            if fault = some 3 then (.storeError, s1)
            else (.ventaActualizada, s1.restarStock diferencia.bind producto.id)

/-- A request to one of the three sales endpoints, with any body. -/
inductive Req where
  /-- Request `POST /ventas` with body `{producto_id, cantidad}`, served at time `now` -/
  | registrar (now : Nat) (producto_id cantidad : JsVal)
  /-- Request `PUT /ventas/:id` with body `{cantidad}` -/
  | actualizar (id : Int) (cantidad : JsVal)
  /-- Request `DELETE /ventas/:id` -/
  | eliminar (id : Int)

/-- One request run to completion with no store error. -/
def Req.exec (r : Req) (s : JsStore) : JsResp × JsStore :=
  match r with
  | .registrar now producto_id cantidad => postVentasJs none now producto_id cantidad s
  | .actualizar id cantidad => putVentasJs none id cantidad s
  | .eliminar id => deleteVentasJs none id s

/-- A sequence of requests, each run to completion before the next starts. -/
def run (rs : List Req) (s : JsStore) : JsStore :=
  rs.foldl (fun st r => (r.exec st).2) s

/-! ## Integer stores and bodies among all stores and bodies -/

/-- A body field that is an integer or absent, as a JavaScript value. -/
def JsVal.ofEntero : Option Int → JsVal
  | none => .undefined
  | some n => .num n

/-- A product row with an integer stock. -/
def Producto.toJs (p : Producto) : JsProducto :=
  { id := p.id, nombre := p.nombre, descripcion := p.descripcion, precio := p.precio,
    stock := some p.stock, categoria_id := p.categoria_id }

/-- A sale row with an integer quantity. -/
def Venta.toJs (v : Venta) : JsVenta :=
  { id := v.id, producto_id := v.producto_id, cantidad := .int v.cantidad, fecha := v.fecha }

/-- A store whose stocks and quantities are all integers. -/
def Store.toJs (s : Store) : JsStore :=
  { categorias := s.categorias, productos := s.productos.map Producto.toJs,
    ventas := s.ventas.map Venta.toJs, seq := s.seq }

/-- The responses of the sales handlers; `Producto eliminado` belongs to another
endpoint and has no image. -/
def Resp.toJs : Resp → Option JsResp
  | .datosInvalidos => some .datosInvalidos
  | .cantidadInvalida => some .cantidadInvalida
  | .storeError => some .storeError
  | .productoNoEncontrado => some .productoNoEncontrado
  | .ventaNoEncontrada => some .ventaNoEncontrada
  | .stockInsuficiente nombre => some (.stockInsuficiente nombre)
  | .stockInsuficienteAumentar => some .stockInsuficienteAumentar
  | .ventaRegistrada cantidad nombre => some (.ventaRegistrada (.num cantidad) nombre)
  | .ventaEliminada => some .ventaEliminada
  | .ventaActualizada => some .ventaActualizada
  | .productoEliminado => none

/-- An integer-bodied request among all requests. -/
def ReqEntero.toReq : ReqEntero → Req
  | .registrar now producto_id cantidad =>
    .registrar now (JsVal.ofEntero producto_id) (JsVal.ofEntero cantidad)
  | .actualizar id cantidad => .actualizar id (JsVal.ofEntero cantidad)
  | .eliminar id => .eliminar id

/-- The JSON string `1000abc`. -/
def texto1000abc : Texto := ⟨"1000abc", rfl⟩

/-- The JSON string `5abc`. -/
def texto5abc : Texto := ⟨"5abc", rfl⟩

/-! ## Lookup and update lemmas -/

theorem find?_map_of_key {α : Type} (key : α → Int) (f : α → α) (hf : ∀ a, key (f a) = key a)
    (k : Int) (l : List α) :
    (l.map f).find? (fun a => key a == k) = (l.find? (fun a => key a == k)).map f := by
  induction l with
  | nil => rfl
  | cons a t ih =>
    rw [List.map_cons, List.find?_cons, List.find?_cons, hf]
    cases key a == k
    · exact ih
    · rfl

theorem getProducto_id {s : Store} {id : Int} {p : Producto} (h : s.getProducto id = some p) :
    p.id = id := by
  have := List.find?_some h
  simpa using this

theorem getProducto_mem {s : Store} {id : Int} {p : Producto} (h : s.getProducto id = some p) :
    p ∈ s.productos :=
  List.mem_of_find?_eq_some h

theorem getVenta_id {s : Store} {id : Int} {v : Venta} (h : s.getVenta id = some v) :
    v.id = id := by
  have := List.find?_some h
  simpa using this

theorem getVenta_mem {s : Store} {id : Int} {v : Venta} (h : s.getVenta id = some v) :
    v ∈ s.ventas :=
  List.mem_of_find?_eq_some h

theorem getProducto_restarStock (s : Store) (n id k : Int) :
    (s.restarStock n id).getProducto k =
      (s.getProducto k).map
        (fun p => if p.id = id then { p with stock := p.stock - n } else p) := by
  unfold Store.getProducto Store.restarStock
  refine find?_map_of_key (fun p => p.id) _ (fun a => ?_) k s.productos
  dsimp only
  split <;> rfl

theorem getProducto_sumarStock (s : Store) (n id k : Int) :
    (s.sumarStock n id).getProducto k =
      (s.getProducto k).map
        (fun p => if p.id = id then { p with stock := p.stock + n } else p) := by
  unfold Store.getProducto Store.sumarStock
  refine find?_map_of_key (fun p => p.id) _ (fun a => ?_) k s.productos
  dsimp only
  split <;> rfl

theorem getVenta_setCantidad (s : Store) (q id k : Int) :
    (s.setCantidad q id).getVenta k =
      (s.getVenta k).map (fun v => if v.id = id then { v with cantidad := q } else v) := by
  unfold Store.getVenta Store.setCantidad
  refine find?_map_of_key (fun v => v.id) _ (fun a => ?_) k s.ventas
  dsimp only
  split <;> rfl

/-! ## Register, delete and validation: single requests -/

/-- C4. `POST /ventas {producto_id: p, cantidad: q}` for an existing product `p`
(row ids of the AUTOINCREMENT key are not 0) and `0 < q ≤ stock(p)`, with no
store error: the answer is 200 `Venta registrada`, the stock of `p` is the old
stock minus `q`, and the sales table is the old one followed by exactly one new
row, which has `producto_id = p` and `cantidad = q`. -/
theorem postVentas_success (s : Store) (now : Nat) (p q : Int) (producto : Producto)
    (hp : s.getProducto p = some producto) (hid : p ≠ 0) (hq : 0 < q)
    (hle : q ≤ producto.stock) :
    (postVentas none now (some p) (some q) s).1 = .ventaRegistrada q producto.nombre ∧
    (postVentas none now (some p) (some q) s).1.status = 200 ∧
    (postVentas none now (some p) (some q) s).2.stock? p = some (producto.stock - q) ∧
    (postVentas none now (some p) (some q) s).2.ventas
      = s.ventas ++ [{ id := s.seq + 1, producto_id := p, cantidad := q, fecha := now }] ∧
    (postVentas none now (some p) (some q) s).2.ventas.length = s.ventas.length + 1 := by
  have hq0 : q ≠ 0 := ne_of_gt hq
  have hq1 : ¬ q ≤ 0 := not_le.mpr hq
  have hst : ¬ producto.stock < q := not_lt.mpr hle
  have hpid : producto.id = p := getProducto_id hp
  have hrun : postVentas none now (some p) (some q) s
      = (.ventaRegistrada q producto.nombre, (s.insertVenta p q now).restarStock q p) := by
    simp [postVentas, hid, hq0, hq1, hp, hst]
  rw [hrun]
  refine ⟨rfl, rfl, ?_, rfl, ?_⟩
  · have hget : (s.insertVenta p q now).getProducto p = some producto := hp
    simp [Store.stock?, getProducto_restarStock, hget, hpid]
  · simp [Store.restarStock, Store.insertVenta]

/-- C4, the example of the specification: Paracetamol (stock 100) and `q = 10` in the
seeded store. -/
theorem postVentas_success_witness :
    (postVentas none 0 (some 1) (some 10) seed).1 = .ventaRegistrada 10 "Paracetamol" ∧
    (postVentas none 0 (some 1) (some 10) seed).1.status = 200 ∧
    (postVentas none 0 (some 1) (some 10) seed).2.stock? 1 = some (100 - 10) ∧
    (postVentas none 0 (some 1) (some 10) seed).2.ventas
      = seed.ventas ++ [{ id := seed.seq + 1, producto_id := 1, cantidad := 10, fecha := 0 }] ∧
    (postVentas none 0 (some 1) (some 10) seed).2.ventas.length = seed.ventas.length + 1 :=
  postVentas_success seed 0 1 10
    ⟨1, "Paracetamol", "Medicamento analgésico", 50, 100, 1⟩ rfl (by decide) (by decide)
    (by decide)

/-- C5. `POST /ventas {producto_id: p, cantidad: q}` for an existing product `p`
and `q > stock(p)`, `q` positive: the answer is 400 `Stock insuficiente de <nombre>`
and the store is the one before the request (stock unchanged, no sale row). -/
theorem postVentas_insufficient (s : Store) (now : Nat) (p q : Int) (producto : Producto)
    (hp : s.getProducto p = some producto) (hid : p ≠ 0) (hq : 0 < q)
    (hgt : producto.stock < q) :
    postVentas none now (some p) (some q) s = (.stockInsuficiente producto.nombre, s) ∧
    (postVentas none now (some p) (some q) s).1.status = 400 := by
  have hq0 : q ≠ 0 := ne_of_gt hq
  have hq1 : ¬ q ≤ 0 := not_le.mpr hq
  have hrun : postVentas none now (some p) (some q) s
      = (.stockInsuficiente producto.nombre, s) := by
    simp [postVentas, hid, hq0, hq1, hp, hgt]
  rw [hrun]
  exact ⟨rfl, rfl⟩

/-- C5 on the seeded store: two units of Ibuprofeno, of which one is in stock. -/
theorem postVentas_insufficient_witness :
    postVentas none 0 (some 2) (some 2) seed = (.stockInsuficiente "Ibuprofeno", seed) ∧
    (postVentas none 0 (some 2) (some 2) seed).1.status = 400 :=
  postVentas_insufficient seed 0 2 2
    ⟨2, "Ibuprofeno", "Medicamento antiinflamatorio", 75, 1, 1⟩ rfl (by decide) (by decide)
    (by decide)

/-- C8. `DELETE /ventas/:id` for an existing sale whose product exists, with no
store error: the answer is 200 `Venta eliminada`, afterwards no sale row has that
id, and the stock of the product is the old stock plus the quantity of the
sale. -/
theorem deleteVentas_success (s : Store) (id : Int) (venta : Venta) (producto : Producto)
    (hv : s.getVenta id = some venta)
    (hp : s.getProducto venta.producto_id = some producto) :
    (deleteVentas none id s).1 = .ventaEliminada ∧
    (deleteVentas none id s).1.status = 200 ∧
    (deleteVentas none id s).2.getVenta id = none ∧
    (∀ v ∈ (deleteVentas none id s).2.ventas, v.id ≠ id) ∧
    (deleteVentas none id s).2.stock? venta.producto_id
      = some (producto.stock + venta.cantidad) := by
  have hpid : producto.id = venta.producto_id := getProducto_id hp
  have hrun : deleteVentas none id s
      = (.ventaEliminada, (s.deleteVenta id).sumarStock venta.cantidad producto.id) := by
    simp [deleteVentas, hv, hp]
  rw [hrun]
  have hmem : ∀ v ∈ ((s.deleteVenta id).sumarStock venta.cantidad producto.id).ventas,
      v.id ≠ id := by
    intro v hvm
    have h2 : v ∈ s.ventas.filter (fun v => v.id != id) := hvm
    simpa using (List.mem_filter.mp h2).2
  refine ⟨rfl, rfl, ?_, hmem, ?_⟩
  · unfold Store.getVenta
    rw [List.find?_eq_none]
    intro v hvm
    simpa using hmem v hvm
  · have hget : (s.deleteVenta id).getProducto venta.producto_id = some producto := hp
    simp [Store.stock?, getProducto_sumarStock, hget, hpid]

/-- C8, the example of the specification: the sale of quantity 10 with product stock
90 is deleted, the stock is 100 again. -/
theorem deleteVentas_success_witness :
    (deleteVentas none 1 ejemploVenta).1 = .ventaEliminada ∧
    (deleteVentas none 1 ejemploVenta).1.status = 200 ∧
    (deleteVentas none 1 ejemploVenta).2.getVenta 1 = none ∧
    (∀ v ∈ (deleteVentas none 1 ejemploVenta).2.ventas, v.id ≠ 1) ∧
    (deleteVentas none 1 ejemploVenta).2.stock? 1 = some (90 + 10) :=
  deleteVentas_success ejemploVenta 1 ⟨1, 1, 10, 0⟩
    ⟨1, "Paracetamol", "Medicamento analgésico", 50, 90, 1⟩ rfl rfl

/-- C10. Validation comes before any store statement.  When `cantidad` is absent,
zero or negative, `POST /ventas` answers 400 `Datos de venta inválidos` and
`PUT /ventas/:id` answers 400 `Cantidad inválida`; when `producto_id` is absent,
`POST /ventas` answers 400 whatever `cantidad` is.  In each case the store is the
one before the request, whatever it holds and whichever statement would have
failed. -/
theorem invalid_input_rejected (s : Store) (fault : Option Nat) (now : Nat) (id : Int)
    (producto_id cantidad otra : Option Int) (hq : ∀ n, cantidad = some n → n ≤ 0) :
    postVentas fault now producto_id cantidad s = (.datosInvalidos, s) ∧
    postVentas fault now none otra s = (.datosInvalidos, s) ∧
    putVentas fault id cantidad s = (.cantidadInvalida, s) ∧
    Resp.datosInvalidos.status = 400 ∧ Resp.cantidadInvalida.status = 400 := by
  refine ⟨?_, ?_, ?_, rfl, rfl⟩
  · cases producto_id with
    | none => simp [postVentas]
    | some p =>
      cases cantidad with
      | none => simp [postVentas]
      | some n =>
        have hn : n ≤ 0 := hq n rfl
        simp [postVentas, hn]
  · simp [postVentas]
  · cases cantidad with
    | none => simp [putVentas]
    | some n =>
      have hn : n ≤ 0 := hq n rfl
      simp [putVentas, hn]

/-- C10 on the store with one sale: `cantidad = 0` for the existing product 1 and the
existing sale 1, with a fault armed on the first statement. -/
theorem invalid_input_rejected_witness :
    postVentas (some 0) 5 (some 1) (some 0) ejemploVenta = (.datosInvalidos, ejemploVenta) ∧
    postVentas (some 0) 5 none (some 3) ejemploVenta = (.datosInvalidos, ejemploVenta) ∧
    putVentas (some 0) 1 (some 0) ejemploVenta = (.cantidadInvalida, ejemploVenta) ∧
    Resp.datosInvalidos.status = 400 ∧ Resp.cantidadInvalida.status = 400 :=
  invalid_input_rejected ejemploVenta (some 0) 5 1 (some 1) (some 0) (some 3)
    (by intro n h; cases h; decide)

/-! ## Update -/

/-- What `PUT /ventas/:id` does for an existing sale whose product exists and a
positive quantity, with no store error: one test on the stock, then both updates. -/
theorem putVentas_eq (s : Store) (id q : Int) (venta : Venta) (producto : Producto)
    (hv : s.getVenta id = some venta)
    (hp : s.getProducto venta.producto_id = some producto) (hq : 0 < q) :
    putVentas none id (some q) s =
      if producto.stock < q - venta.cantidad then (.stockInsuficienteAumentar, s)
      else (.ventaActualizada,
            (s.setCantidad q id).restarStock (q - venta.cantidad) producto.id) := by
  have hq0 : q ≠ 0 := ne_of_gt hq
  have hq1 : ¬ q ≤ 0 := not_le.mpr hq
  simp [putVentas, hq0, hq1, hv, hp]

/-- C6. Whenever `PUT /ventas/:id {cantidad: q}` succeeds (200) for an existing sale
whose product exists and a positive `q`, the sale then has quantity `q` and the
stock of the product is the old stock minus `(q - old quantity)`, the same
signed formula for increases and decreases. -/
theorem putVentas_success (s : Store) (id q : Int) (venta : Venta) (producto : Producto)
    (hv : s.getVenta id = some venta)
    (hp : s.getProducto venta.producto_id = some producto) (hq : 0 < q)
    (hok : (putVentas none id (some q) s).1.status = 200) :
    (putVentas none id (some q) s).1 = .ventaActualizada ∧
    ((putVentas none id (some q) s).2.getVenta id).map (fun v => v.cantidad) = some q ∧
    (putVentas none id (some q) s).2.stock? venta.producto_id
      = some (producto.stock - (q - venta.cantidad)) := by
  have hpid : producto.id = venta.producto_id := getProducto_id hp
  have hvid : venta.id = id := getVenta_id hv
  rw [putVentas_eq s id q venta producto hv hp hq] at hok ⊢
  by_cases hlt : producto.stock < q - venta.cantidad
  · rw [if_pos hlt] at hok
    simp [Resp.status] at hok
  · rw [if_neg hlt]
    refine ⟨rfl, ?_, ?_⟩
    · have hget : ((s.setCantidad q id).restarStock (q - venta.cantidad) producto.id).getVenta id
          = (s.setCantidad q id).getVenta id := rfl
      simp [hget, getVenta_setCantidad, hv, hvid]
    · have hget : (s.setCantidad q id).getProducto venta.producto_id = some producto := hp
      simp [Store.stock?, getProducto_restarStock, hget, hpid]

/-- C6, the example of the specification: the sale of quantity 10 on a product with
stock 90 is updated to 5; the stock becomes 95 and the quantity 5. -/
theorem putVentas_success_witness :
    (putVentas none 1 (some 5) ejemploVenta).1 = .ventaActualizada ∧
    ((putVentas none 1 (some 5) ejemploVenta).2.getVenta 1).map (fun v => v.cantidad)
      = some 5 ∧
    (putVentas none 1 (some 5) ejemploVenta).2.stock? 1 = some (90 - (5 - 10)) :=
  putVentas_success ejemploVenta 1 5 ⟨1, 1, 10, 0⟩
    ⟨1, "Paracetamol", "Medicamento analgésico", 50, 90, 1⟩ rfl rfl (by decide) rfl

/-- C7 as stated fails on a store with a negative stock: the sale of quantity 10 is
"updated" to the same quantity 10 (`delta = 0`), the product has stock -1, and the
request is rejected with `Stock insuficiente para aumentar la cantidad` although
`delta > 0` does not hold. -/
theorem putVentas_rejection_counterexample :
    ejemploNegativo.getVenta 1 = some ⟨1, 1, 10, 0⟩ ∧
    ejemploNegativo.stock? 1 = some (-1) ∧
    (putVentas none 1 (some 10) ejemploNegativo).1 = .stockInsuficienteAumentar ∧
    ¬ (0 < (10 : Int) - 10 ∧ (-1 : Int) < 10 - 10) := by
  refine ⟨rfl, rfl, rfl, ?_⟩
  decide

/-- C7, amended. For an existing sale whose product `p` exists and a positive new
quantity, with `delta = new quantity - old quantity` and no store error,
`PUT /ventas/:id` is rejected with 400 `Stock insuficiente para aumentar la
cantidad` if and only if `stock(p) < delta`; when `stock(p) ≥ 0` that is the same
as `delta > 0` and `stock(p) < delta`.  A rejected request leaves the store as it
was. -/
theorem putVentas_rejection (s : Store) (id q : Int) (venta : Venta) (producto : Producto)
    (hv : s.getVenta id = some venta)
    (hp : s.getProducto venta.producto_id = some producto) (hq : 0 < q) :
    ((putVentas none id (some q) s).1 = .stockInsuficienteAumentar ↔
      producto.stock < q - venta.cantidad) ∧
    (0 ≤ producto.stock →
      ((putVentas none id (some q) s).1 = .stockInsuficienteAumentar ↔
        0 < q - venta.cantidad ∧ producto.stock < q - venta.cantidad)) ∧
    ((putVentas none id (some q) s).1 = .stockInsuficienteAumentar →
      (putVentas none id (some q) s).2 = s ∧
      (putVentas none id (some q) s).1.status = 400) := by
  rw [putVentas_eq s id q venta producto hv hp hq]
  by_cases hlt : producto.stock < q - venta.cantidad
  · rw [if_pos hlt]
    refine ⟨⟨fun _ => hlt, fun _ => rfl⟩, fun h0 => ⟨fun _ => ⟨lt_of_le_of_lt h0 hlt, hlt⟩, fun _ => rfl⟩,
      fun _ => ⟨rfl, rfl⟩⟩
  · rw [if_neg hlt]
    refine ⟨⟨fun h => ?_, fun h => absurd h hlt⟩,
      fun _ => ⟨fun h => ?_, fun h => absurd h.2 hlt⟩, fun h => ?_⟩ <;>
    exact absurd h (by simp)

/-- C7, the example of the specification: sale of quantity 10, stock 0, new quantity
15 is rejected and the store is unchanged. -/
theorem putVentas_rejection_witness :
    (putVentas none 1 (some 15) ejemploAgotado).1 = .stockInsuficienteAumentar ∧
    (putVentas none 1 (some 15) ejemploAgotado).2 = ejemploAgotado ∧
    (putVentas none 1 (some 15) ejemploAgotado).1.status = 400 :=
  have h := putVentas_rejection ejemploAgotado 1 15 ⟨1, 1, 10, 0⟩
    ⟨1, "Paracetamol", "Medicamento analgésico", 50, 0, 1⟩ rfl rfl (by decide)
  have hr := h.1.mpr (by decide)
  ⟨hr, h.2.2 hr⟩

/-! ## Not found -/

/-- C9 as stated fails at two requests on the seeded store.  `POST /ventas` with the
valid quantity 1 and `producto_id = 0`, which matches no product, is answered 400
`Datos de venta inválidos` by the guard `!producto_id`, not 404; `PUT /ventas/99`
with `cantidad = 0`, where no sale 99 exists, is answered 400 `Cantidad inválida`,
not 404. -/
theorem notFound_counterexample :
    seed.getProducto 0 = none ∧
    (postVentas none 0 (some 0) (some 1) seed).1 = .datosInvalidos ∧
    (postVentas none 0 (some 0) (some 1) seed).1.status ≠ 404 ∧
    seed.getVenta 99 = none ∧
    (putVentas none 99 (some 0) seed).1 = .cantidadInvalida ∧
    (putVentas none 99 (some 0) seed).1.status ≠ 404 := by
  refine ⟨rfl, rfl, ?_, rfl, rfl, ?_⟩ <;> decide

/-- C9, amended. With no store error, each of these requests is answered 404 and
leaves the store (every sale row, every stock) as it was: `POST /ventas` with a
positive quantity and a non-zero `producto_id` that matches no product;
`PUT /ventas/:id` with a positive quantity, and `DELETE /ventas/:id`, for an id
that matches no sale; `PUT /ventas/:id` with a positive quantity, and
`DELETE /ventas/:id`, for an existing sale whose product does not exist.  In
the last case the sale row is still there. -/
theorem notFound_unchanged (s : Store) (now : Nat) (p q id : Int) (hq : 0 < q) :
    (p ≠ 0 → s.getProducto p = none →
      postVentas none now (some p) (some q) s = (.productoNoEncontrado, s)) ∧
    (s.getVenta id = none →
      putVentas none id (some q) s = (.ventaNoEncontrada, s) ∧
      deleteVentas none id s = (.ventaNoEncontrada, s)) ∧
    (∀ venta, s.getVenta id = some venta → s.getProducto venta.producto_id = none →
      putVentas none id (some q) s = (.productoNoEncontrado, s) ∧
      deleteVentas none id s = (.productoNoEncontrado, s) ∧
      (deleteVentas none id s).2.getVenta id = some venta) ∧
    Resp.productoNoEncontrado.status = 404 ∧ Resp.ventaNoEncontrada.status = 404 := by
  have hq0 : q ≠ 0 := ne_of_gt hq
  have hq1 : ¬ q ≤ 0 := not_le.mpr hq
  refine ⟨fun hp hnone => ?_, fun hnone => ⟨?_, ?_⟩, fun venta hv hnone => ?_, rfl, rfl⟩
  · simp [postVentas, hp, hq0, hq1, hnone]
  · simp [putVentas, hq0, hq1, hnone]
  · simp [deleteVentas, hnone]
  · have hdel : deleteVentas none id s = (.productoNoEncontrado, s) := by
      simp [deleteVentas, hv, hnone]
    refine ⟨?_, hdel, ?_⟩
    · simp [putVentas, hq0, hq1, hv, hnone]
    · rw [hdel]
      exact hv

/-- C9, amended, on concrete stores: product 9 and sale 7 do not exist in the store
with one sale; in `ejemploHuerfana` sale 1 exists and its product was deleted. -/
theorem notFound_unchanged_witness :
    postVentas none 3 (some 9) (some 2) ejemploVenta = (.productoNoEncontrado, ejemploVenta) ∧
    putVentas none 7 (some 2) ejemploVenta = (.ventaNoEncontrada, ejemploVenta) ∧
    deleteVentas none 7 ejemploVenta = (.ventaNoEncontrada, ejemploVenta) ∧
    putVentas none 1 (some 2) ejemploHuerfana = (.productoNoEncontrado, ejemploHuerfana) ∧
    deleteVentas none 1 ejemploHuerfana = (.productoNoEncontrado, ejemploHuerfana) ∧
    (deleteVentas none 1 ejemploHuerfana).2.getVenta 1 = some ⟨1, 1, 10, 0⟩ :=
  have a := notFound_unchanged ejemploVenta 3 9 2 7 (by decide)
  have b := notFound_unchanged ejemploHuerfana 3 9 2 1 (by decide)
  have c := b.2.2.1 ⟨1, 1, 10, 0⟩ rfl rfl
  ⟨a.1 (by decide) rfl, (a.2.1 rfl).1, (a.2.1 rfl).2, c.1, c.2.1, c.2.2⟩

/-! ## Store errors -/

/-- C3 as stated fails when the second write is the statement that fails.  In the
seeded store, `POST /ventas {producto_id: 1, cantidad: 10}` whose `UPDATE` of the
stock fails answers 500 and leaves the new sale row in place with the stock of
Paracetamol still 100. -/
theorem storeError_counterexample :
    (postVentas (some 2) 0 (some 1) (some 10) seed).1 = .storeError ∧
    (postVentas (some 2) 0 (some 1) (some 10) seed).2 ≠ seed ∧
    (postVentas (some 2) 0 (some 1) (some 10) seed).2.ventas = [⟨1, 1, 10, 0⟩] ∧
    (postVentas (some 2) 0 (some 1) (some 10) seed).2.stock? 1 = some 100 := by
  refine ⟨rfl, ?_, rfl, rfl⟩
  intro h
  have hv := congrArg Store.ventas h
  exact absurd hv (by decide)

theorem postVentas_storeError (s : Store) (k : Nat) (now : Nat)
    (producto_id cantidad : Option Int)
    (h : (postVentas (some k) now producto_id cantidad s).1 = .storeError) :
    (k ≤ 1 ∧ (postVentas (some k) now producto_id cantidad s).2 = s) ∨
    (k = 2 ∧ ∃ p q, producto_id = some p ∧ cantidad = some q ∧
      (postVentas (some k) now producto_id cantidad s).2 = s.insertVenta p q now) := by
  cases producto_id with
  | none => simp [postVentas] at h
  | some p =>
    cases cantidad with
    | none => simp [postVentas] at h
    | some q =>
      by_cases hval : p = 0 ∨ q = 0 ∨ q ≤ 0
      · simp [postVentas, hval] at h
      · by_cases k0 : k = 0
        · simp [postVentas, hval, k0]
        · cases hg : s.getProducto p with
          | none => simp [postVentas, hval, k0, hg] at h
          | some producto =>
            by_cases hs : producto.stock < q
            · simp [postVentas, hval, k0, hg, hs] at h
            · by_cases k1 : k = 1
              · simp [postVentas, hval, hg, hs, k1]
              · by_cases k2 : k = 2
                · simp [postVentas, hval, hg, hs, k2]
                · simp [postVentas, hval, k0, hg, hs, k1, k2] at h

theorem deleteVentas_storeError (s : Store) (k : Nat) (id : Int)
    (h : (deleteVentas (some k) id s).1 = .storeError) :
    (k ≤ 2 ∧ (deleteVentas (some k) id s).2 = s) ∨
    (k = 3 ∧ (deleteVentas (some k) id s).2 = s.deleteVenta id) := by
  by_cases k0 : k = 0
  · simp [deleteVentas, k0]
  · cases hv : s.getVenta id with
    | none => simp [deleteVentas, k0, hv] at h
    | some venta =>
      by_cases k1 : k = 1
      · simp [deleteVentas, hv, k1]
      · cases hg : s.getProducto venta.producto_id with
        | none => simp [deleteVentas, k0, hv, k1, hg] at h
        | some producto =>
          by_cases k2 : k = 2
          · simp [deleteVentas, hv, hg, k2]
          · by_cases k3 : k = 3
            · simp [deleteVentas, hv, hg, k3]
            · simp [deleteVentas, k0, hv, k1, hg, k2, k3] at h

theorem putVentas_storeError (s : Store) (k : Nat) (id : Int) (cantidad : Option Int)
    (h : (putVentas (some k) id cantidad s).1 = .storeError) :
    (k ≤ 2 ∧ (putVentas (some k) id cantidad s).2 = s) ∨
    (k = 3 ∧ ∃ q, cantidad = some q ∧
      (putVentas (some k) id cantidad s).2 = s.setCantidad q id) := by
  cases cantidad with
  | none => simp [putVentas] at h
  | some q =>
    by_cases hval : q = 0 ∨ q ≤ 0
    · simp [putVentas, hval] at h
    · by_cases k0 : k = 0
      · simp [putVentas, hval, k0]
      · cases hv : s.getVenta id with
        | none => simp [putVentas, hval, k0, hv] at h
        | some venta =>
          by_cases k1 : k = 1
          · simp [putVentas, hval, hv, k1]
          · cases hg : s.getProducto venta.producto_id with
            | none => simp [putVentas, hval, k0, hv, k1, hg] at h
            | some producto =>
              by_cases hs : producto.stock < q - venta.cantidad
              · simp [putVentas, hval, k0, hv, k1, hg, hs] at h
              · by_cases k2 : k = 2
                · simp [putVentas, hval, hv, hg, hs, k2]
                · by_cases k3 : k = 3
                  · simp [putVentas, hval, hv, hg, hs, k3]
                  · simp [putVentas, hval, k0, hv, k1, hg, hs, k2, k3] at h

/-- C3, amended. When a request answers 500 because its `k`-th store statement
failed: if that statement is a `SELECT` or the first write (`k ≤ 1` for
`POST /ventas`, `k ≤ 2` for `DELETE` and `PUT /ventas/:id`) the store is the
one before the request; if it is the second write, the `UPDATE` of the stock,
the first write stays applied and nothing else: the sale row is inserted,
deleted or changed, without the stock adjustment.  In every case the products
table is untouched: no stock adjustment is made without the sale change. -/
theorem storeError_state (s : Store) (k now : Nat) (id : Int)
    (producto_id cantidad : Option Int) :
    ((postVentas (some k) now producto_id cantidad s).1 = .storeError →
      ((k ≤ 1 ∧ (postVentas (some k) now producto_id cantidad s).2 = s) ∨
       (k = 2 ∧ ∃ p q, producto_id = some p ∧ cantidad = some q ∧
          (postVentas (some k) now producto_id cantidad s).2 = s.insertVenta p q now)) ∧
      (postVentas (some k) now producto_id cantidad s).2.productos = s.productos) ∧
    ((deleteVentas (some k) id s).1 = .storeError →
      ((k ≤ 2 ∧ (deleteVentas (some k) id s).2 = s) ∨
       (k = 3 ∧ (deleteVentas (some k) id s).2 = s.deleteVenta id)) ∧
      (deleteVentas (some k) id s).2.productos = s.productos) ∧
    ((putVentas (some k) id cantidad s).1 = .storeError →
      ((k ≤ 2 ∧ (putVentas (some k) id cantidad s).2 = s) ∨
       (k = 3 ∧ ∃ q, cantidad = some q ∧
          (putVentas (some k) id cantidad s).2 = s.setCantidad q id)) ∧
      (putVentas (some k) id cantidad s).2.productos = s.productos) := by
  refine ⟨fun h => ?_, fun h => ?_, fun h => ?_⟩
  · have hc := postVentas_storeError s k now producto_id cantidad h
    refine ⟨hc, ?_⟩
    rcases hc with ⟨_, he⟩ | ⟨_, p, q, _, _, he⟩
    · rw [he]
    · rw [he]; rfl
  · have hc := deleteVentas_storeError s k id h
    refine ⟨hc, ?_⟩
    rcases hc with ⟨_, he⟩ | ⟨_, he⟩
    · rw [he]
    · rw [he]; rfl
  · have hc := putVentas_storeError s k id cantidad h
    refine ⟨hc, ?_⟩
    rcases hc with ⟨_, he⟩ | ⟨_, q, _, he⟩
    · rw [he]
    · rw [he]; rfl

/-- C3, amended, on the store with one sale of 10 Paracetamol (stock 90).  A failure
of the first write (`k = 2`) of `DELETE /ventas/1` and of `PUT /ventas/1` leaves
the store as it was; a failure of the second write (`k = 3`) leaves the sale
deleted, or changed to 4, with the stock still 90; a failure of the `UPDATE`
of `POST /ventas` (`k = 2`) leaves the new sale with the stock still 90. -/
theorem storeError_state_witness :
    (postVentas (some 2) 0 (some 1) (some 10) ejemploVenta).2.productos
      = ejemploVenta.productos ∧
    (postVentas (some 2) 0 (some 1) (some 10) ejemploVenta).2.ventas.length = 2 ∧
    (deleteVentas (some 2) 1 ejemploVenta).2.productos = ejemploVenta.productos ∧
    (putVentas (some 2) 1 (some 4) ejemploVenta).2.productos = ejemploVenta.productos ∧
    (deleteVentas (some 3) 1 ejemploVenta).2.productos = ejemploVenta.productos ∧
    (deleteVentas (some 3) 1 ejemploVenta).2.ventas = [] ∧
    (putVentas (some 3) 1 (some 4) ejemploVenta).2.productos = ejemploVenta.productos ∧
    (putVentas (some 3) 1 (some 4) ejemploVenta).2.ventas = [⟨1, 1, 4, 0⟩] :=
  have a := storeError_state ejemploVenta 2 0 1 (some 1) (some 10)
  have b := storeError_state ejemploVenta 2 0 1 (some 1) (some 4)
  have c := storeError_state ejemploVenta 3 0 1 (some 1) (some 4)
  ⟨(a.1 rfl).2, rfl, (b.2.1 rfl).2, (b.2.2 rfl).2, (c.2.1 rfl).2, rfl, (c.2.2 rfl).2, rfl⟩

/-! ## Quantities sold -/

theorem map_setCantidad_of_absent (l : List Venta) (id q : Int) (h : ∀ v ∈ l, v.id ≠ id) :
    l.map (fun v => if v.id = id then { v with cantidad := q } else v) = l := by
  induction l with
  | nil => rfl
  | cons a t ih =>
    have ha : a.id ≠ id := h a (List.mem_cons_self a t)
    rw [List.map_cons, if_neg ha, ih (fun v hv => h v (List.mem_cons_of_mem a hv))]

theorem filter_ne_of_absent (l : List Venta) (id : Int) (h : ∀ v ∈ l, v.id ≠ id) :
    l.filter (fun v => v.id != id) = l := by
  rw [List.filter_eq_self]
  intro v hv
  simpa using h v hv

theorem absent_of_nodup_cons {a : Venta} {t : List Venta}
    (hnd : ((a :: t).map (fun v => v.id)).Nodup) : ∀ v ∈ t, v.id ≠ a.id := by
  intro v hv heq
  rw [List.map_cons, List.nodup_cons] at hnd
  exact hnd.1 (heq ▸ List.mem_map_of_mem (fun v => v.id) hv)

theorem sum_setCantidad (l : List Venta) (id q pid : Int) (v : Venta)
    (hnd : (l.map (fun v => v.id)).Nodup) (hf : l.find? (fun v => v.id == id) = some v) :
    (((l.map (fun v => if v.id = id then { v with cantidad := q } else v)).filter
        (fun v => v.producto_id == pid)).map (fun v => v.cantidad)).sum
      = ((l.filter (fun v => v.producto_id == pid)).map (fun v => v.cantidad)).sum
        + (if v.producto_id = pid then q - v.cantidad else 0) := by
  induction l with
  | nil => simp at hf
  | cons a t ih =>
    have hnd' : (t.map (fun v => v.id)).Nodup := by
      rw [List.map_cons, List.nodup_cons] at hnd
      exact hnd.2
    by_cases ha : a.id = id
    · have hva : v = a := by
        rw [List.find?_cons] at hf
        simp [ha] at hf
        exact hf.symm
      subst hva
      have habs : ∀ w ∈ t, w.id ≠ id := ha ▸ absent_of_nodup_cons hnd
      rw [List.map_cons, map_setCantidad_of_absent t id q habs, if_pos ha]
      by_cases hp : v.producto_id = pid
      · simp [List.filter_cons, hp]
        ring
      · simp [List.filter_cons, hp]
    · have hf' : t.find? (fun v => v.id == id) = some v := by
        have hne : (a.id == id) = false := by simpa using ha
        rw [List.find?_cons, hne] at hf
        exact hf
      rw [List.map_cons, if_neg ha]
      have := ih hnd' hf'
      by_cases hp : a.producto_id = pid
      · simp only [List.filter_cons, hp, beq_self_eq_true, if_true, List.map_cons, List.sum_cons]
        rw [this]
        ring
      · have hb : (a.producto_id == pid) = false := by simpa using hp
        simp only [List.filter_cons, hb]
        exact this

theorem sum_deleteVenta (l : List Venta) (id pid : Int) (v : Venta)
    (hnd : (l.map (fun v => v.id)).Nodup) (hf : l.find? (fun v => v.id == id) = some v) :
    (((l.filter (fun v => v.id != id)).filter
        (fun v => v.producto_id == pid)).map (fun v => v.cantidad)).sum
      = ((l.filter (fun v => v.producto_id == pid)).map (fun v => v.cantidad)).sum
        - (if v.producto_id = pid then v.cantidad else 0) := by
  induction l with
  | nil => simp at hf
  | cons a t ih =>
    have hnd' : (t.map (fun v => v.id)).Nodup := by
      rw [List.map_cons, List.nodup_cons] at hnd
      exact hnd.2
    by_cases ha : a.id = id
    · have hva : v = a := by
        rw [List.find?_cons] at hf
        simp [ha] at hf
        exact hf.symm
      subst hva
      have habs : ∀ w ∈ t, w.id ≠ id := ha ▸ absent_of_nodup_cons hnd
      have hb : (v.id != id) = false := by simp [ha]
      rw [List.filter_cons, hb, filter_ne_of_absent t id habs]
      by_cases hp : v.producto_id = pid
      · simp [List.filter_cons, hp]
      · simp [List.filter_cons, hp]
    · have hf' : t.find? (fun v => v.id == id) = some v := by
        have hne : (a.id == id) = false := by simpa using ha
        rw [List.find?_cons, hne] at hf
        exact hf
      have hb : (a.id != id) = true := by simpa using ha
      rw [List.filter_cons, hb]
      have := ih hnd' hf'
      by_cases hp : a.producto_id = pid
      · simp only [List.filter_cons, hp, beq_self_eq_true, if_true, List.map_cons, List.sum_cons]
        rw [this]
        ring
      · have hb2 : (a.producto_id == pid) = false := by simpa using hp
        simp only [List.filter_cons, hb2, if_true]
        exact this

theorem vendido_insertVenta (s : Store) (p q : Int) (now : Nat) (pid : Int) :
    (s.insertVenta p q now).vendido pid = s.vendido pid + (if p = pid then q else 0) := by
  unfold Store.vendido Store.insertVenta
  by_cases hp : p = pid
  · simp [List.filter_append, List.filter_cons, hp]
  · simp [List.filter_append, List.filter_cons, hp]

/-! ## The three outcomes of a request that meets no store error -/

theorem postVentas_cases (s : Store) (now : Nat) (producto_id cantidad : Option Int) :
    (postVentas none now producto_id cantidad s).2 = s ∨
    ∃ p q producto, s.getProducto p = some producto ∧ 0 < q ∧ q ≤ producto.stock ∧
      (postVentas none now producto_id cantidad s).2 = (s.insertVenta p q now).restarStock q p := by
  cases producto_id with
  | none => left; simp [postVentas]
  | some p =>
    cases cantidad with
    | none => left; simp [postVentas]
    | some q =>
      by_cases hval : p = 0 ∨ q = 0 ∨ q ≤ 0
      · left; simp [postVentas, hval]
      · cases hg : s.getProducto p with
        | none => left; simp [postVentas, hval, hg]
        | some producto =>
          by_cases hs : producto.stock < q
          · left; simp [postVentas, hval, hg, hs]
          · right
            refine ⟨p, q, producto, hg, ?_, not_lt.mp hs, ?_⟩
            · simp only [not_or, not_le] at hval
              exact hval.2.2
            · simp [postVentas, hval, hg, hs]

theorem deleteVentas_cases (s : Store) (id : Int) :
    (deleteVentas none id s).2 = s ∨
    ∃ venta producto, s.getVenta id = some venta ∧
      s.getProducto venta.producto_id = some producto ∧
      (deleteVentas none id s).2 = (s.deleteVenta id).sumarStock venta.cantidad producto.id := by
  cases hv : s.getVenta id with
  | none => left; simp [deleteVentas, hv]
  | some venta =>
    cases hg : s.getProducto venta.producto_id with
    | none => left; simp [deleteVentas, hv, hg]
    | some producto =>
      right
      exact ⟨venta, producto, rfl, hg, by simp [deleteVentas, hv, hg]⟩

theorem putVentas_cases (s : Store) (id : Int) (cantidad : Option Int) :
    (putVentas none id cantidad s).2 = s ∨
    ∃ q venta producto, s.getVenta id = some venta ∧
      s.getProducto venta.producto_id = some producto ∧ 0 < q ∧
      q - venta.cantidad ≤ producto.stock ∧
      (putVentas none id cantidad s).2
        = (s.setCantidad q id).restarStock (q - venta.cantidad) producto.id := by
  cases cantidad with
  | none => left; simp [putVentas]
  | some q =>
    by_cases hval : q = 0 ∨ q ≤ 0
    · left; simp [putVentas, hval]
    · cases hv : s.getVenta id with
      | none => left; simp [putVentas, hval, hv]
      | some venta =>
        cases hg : s.getProducto venta.producto_id with
        | none => left; simp [putVentas, hval, hv, hg]
        | some producto =>
          by_cases hs : producto.stock < q - venta.cantidad
          · left; simp [putVentas, hval, hv, hg, hs]
          · right
            refine ⟨q, venta, producto, rfl, hg, ?_, not_lt.mp hs, ?_⟩
            · simp only [not_or, not_le] at hval
              exact hval.2
            · simp [putVentas, hval, hv, hg, hs]

theorem stock?_restarStock (s : Store) (n id k : Int) :
    (s.restarStock n id).stock? k = (s.stock? k).map (fun x => if k = id then x - n else x) := by
  unfold Store.stock?
  rw [getProducto_restarStock]
  cases hg : s.getProducto k with
  | none => rfl
  | some p =>
    have hk : p.id = k := getProducto_id hg
    by_cases h : k = id
    · simp [hk, h]
    · simp [hk, h]

theorem stock?_sumarStock (s : Store) (n id k : Int) :
    (s.sumarStock n id).stock? k = (s.stock? k).map (fun x => if k = id then x + n else x) := by
  unfold Store.stock?
  rw [getProducto_sumarStock]
  cases hg : s.getProducto k with
  | none => rfl
  | some p =>
    have hk : p.id = k := getProducto_id hg
    by_cases h : k = id
    · simp [hk, h]
    · simp [hk, h]

/-! ## The key of `ventas` -/

/-- The hypothesis of the conservation theorem holds in every store that
integer-bodied requests can reach: such a request with no store error keeps the sale ids distinct and at most the
AUTOINCREMENT counter. -/
theorem exec_preserves_key (s : Store) (r : ReqEntero)
    (hnd : (s.ventas.map (fun v => v.id)).Nodup) (hseq : ∀ v ∈ s.ventas, v.id ≤ s.seq) :
    ((r.exec s).2.ventas.map (fun v => v.id)).Nodup ∧
    (∀ v ∈ (r.exec s).2.ventas, v.id ≤ (r.exec s).2.seq) := by
  cases r with
  | registrar now producto_id cantidad =>
    rcases postVentas_cases s now producto_id cantidad with he | ⟨p, q, producto, _, _, _, he⟩
    · rw [ReqEntero.exec, he]; exact ⟨hnd, hseq⟩
    · rw [ReqEntero.exec, he]
      have hven : ((s.insertVenta p q now).restarStock q p).ventas
          = s.ventas ++ [(⟨s.seq + 1, p, q, now⟩ : Venta)] := rfl
      have hs : ((s.insertVenta p q now).restarStock q p).seq = s.seq + 1 := rfl
      rw [hven, hs]
      refine ⟨?_, ?_⟩
      · rw [List.map_append, List.nodup_append]
        refine ⟨hnd, by simp, ?_⟩
        intro a ha hb
        obtain ⟨v, hv, rfl⟩ := List.mem_map.mp ha
        have h1 : v.id ≤ s.seq := hseq v hv
        have h2 : v.id = s.seq + 1 := by simpa using hb
        omega
      · intro v hv
        rcases List.mem_append.mp hv with h | h
        · have := hseq v h; omega
        · rw [List.mem_singleton.mp h]
  | actualizar id cantidad =>
    rcases putVentas_cases s id cantidad with he | ⟨q, venta, producto, _, _, _, _, he⟩
    · rw [ReqEntero.exec, he]; exact ⟨hnd, hseq⟩
    · rw [ReqEntero.exec, he]
      have hven : ((s.setCantidad q id).restarStock (q - venta.cantidad) producto.id).ventas
          = s.ventas.map (fun v => if v.id = id then { v with cantidad := q } else v) := rfl
      have hs : ((s.setCantidad q id).restarStock (q - venta.cantidad) producto.id).seq
          = s.seq := rfl
      rw [hven, hs]
      refine ⟨?_, ?_⟩
      · have hids : (s.ventas.map
            (fun v => if v.id = id then { v with cantidad := q } else v)).map (fun v => v.id)
            = s.ventas.map (fun v => v.id) := by
          rw [List.map_map]
          apply List.map_congr_left
          intro v _
          dsimp only [Function.comp]
          split <;> rfl
        rw [hids]; exact hnd
      · intro v hv
        obtain ⟨v0, hv0, rfl⟩ := List.mem_map.mp hv
        have := hseq v0 hv0
        split <;> exact this
  | eliminar id =>
    rcases deleteVentas_cases s id with he | ⟨venta, producto, _, _, he⟩
    · rw [ReqEntero.exec, he]; exact ⟨hnd, hseq⟩
    · rw [ReqEntero.exec, he]
      have hven : ((s.deleteVenta id).sumarStock venta.cantidad producto.id).ventas
          = s.ventas.filter (fun v => v.id != id) := rfl
      have hs : ((s.deleteVenta id).sumarStock venta.cantidad producto.id).seq = s.seq := rfl
      rw [hven, hs]
      refine ⟨?_, ?_⟩
      · exact List.Nodup.sublist ((List.filter_sublist s.ventas).map (fun v => v.id)) hnd
      · intro v hv
        exact hseq v (List.mem_filter.mp hv).1

/-! ## Conservation and non-negative stock -/

/-- Conservation for one integer-bodied request, with the stock after the request
named. -/
theorem exec_conserves (s : Store) (r : ReqEntero) (pid st : Int)
    (hnd : (s.ventas.map (fun v => v.id)).Nodup) (hst : s.stock? pid = some st) :
    ∃ st', (r.exec s).2.stock? pid = some st' ∧
      st' + (r.exec s).2.vendido pid = st + s.vendido pid := by
  cases r with
  | registrar now producto_id cantidad =>
    rcases postVentas_cases s now producto_id cantidad with he | ⟨p, q, producto, _, _, _, he⟩
    · exact ⟨st, by rw [ReqEntero.exec, he]; exact hst, by rw [ReqEntero.exec, he]⟩
    · have h1 : (s.insertVenta p q now).stock? pid = some st := hst
      have h2 : ((s.insertVenta p q now).restarStock q p).vendido pid
          = (s.insertVenta p q now).vendido pid := rfl
      refine ⟨if pid = p then st - q else st, ?_, ?_⟩
      · rw [ReqEntero.exec, he, stock?_restarStock, h1]; rfl
      · rw [ReqEntero.exec, he, h2, vendido_insertVenta]
        by_cases hpp : pid = p
        · have hpp' : p = pid := hpp.symm
          rw [if_pos hpp, if_pos hpp']; ring
        · have hpp' : ¬ p = pid := fun h => hpp h.symm
          rw [if_neg hpp, if_neg hpp']; ring
  | actualizar id cantidad =>
    rcases putVentas_cases s id cantidad with he | ⟨q, venta, producto, hv, hp, _, _, he⟩
    · exact ⟨st, by rw [ReqEntero.exec, he]; exact hst, by rw [ReqEntero.exec, he]⟩
    · have hpid : producto.id = venta.producto_id := getProducto_id hp
      have h1 : (s.setCantidad q id).stock? pid = some st := hst
      have h2 : ((s.setCantidad q id).restarStock (q - venta.cantidad) producto.id).vendido pid
          = s.vendido pid + (if venta.producto_id = pid then q - venta.cantidad else 0) :=
        sum_setCantidad s.ventas id q pid venta hnd hv
      refine ⟨if pid = producto.id then st - (q - venta.cantidad) else st, ?_, ?_⟩
      · rw [ReqEntero.exec, he, stock?_restarStock, h1]; rfl
      · rw [ReqEntero.exec, he, h2, hpid]
        by_cases hpp : pid = venta.producto_id
        · have hpp' : venta.producto_id = pid := hpp.symm
          rw [if_pos hpp, if_pos hpp']; ring
        · have hpp' : ¬ venta.producto_id = pid := fun h => hpp h.symm
          rw [if_neg hpp, if_neg hpp']; ring
  | eliminar id =>
    rcases deleteVentas_cases s id with he | ⟨venta, producto, hv, hp, he⟩
    · exact ⟨st, by rw [ReqEntero.exec, he]; exact hst, by rw [ReqEntero.exec, he]⟩
    · have hpid : producto.id = venta.producto_id := getProducto_id hp
      have h1 : (s.deleteVenta id).stock? pid = some st := hst
      have h2 : ((s.deleteVenta id).sumarStock venta.cantidad producto.id).vendido pid
          = s.vendido pid - (if venta.producto_id = pid then venta.cantidad else 0) :=
        sum_deleteVenta s.ventas id pid venta hnd hv
      refine ⟨if pid = producto.id then st + venta.cantidad else st, ?_, ?_⟩
      · rw [ReqEntero.exec, he, stock?_sumarStock, h1]; rfl
      · rw [ReqEntero.exec, he, h2, hpid]
        by_cases hpp : pid = venta.producto_id
        · have hpp' : venta.producto_id = pid := hpp.symm
          rw [if_pos hpp, if_pos hpp']; ring
        · have hpp' : ¬ venta.producto_id = pid := fun h => hpp h.symm
          rw [if_neg hpp, if_neg hpp']; ring

/-- Conservation on integer bodies.  For a store whose sale ids are distinct (`id` is
the primary key of `ventas`), every product `pid` of the store and every request
to `POST /ventas`, `PUT /ventas/:id` or `DELETE /ventas/:id` whose body fields
are integers or absent, run to completion with no store error, accepted or
rejected: the product is still there and its stock plus the sum of
the quantities of the sales that reference it is the same after the request as
before. -/
theorem stock_conservation (s : Store) (r : ReqEntero) (pid st : Int)
    (hnd : (s.ventas.map (fun v => v.id)).Nodup) (hst : s.stock? pid = some st) :
    ((r.exec s).2.stock? pid).map (fun x => x + (r.exec s).2.vendido pid)
      = some (st + s.vendido pid) := by
  obtain ⟨st', h1, h2⟩ := exec_conserves s r pid st hnd hst
  rw [h1, Option.map_some', h2]

/-- Conservation on the store with one sale of 10 Paracetamol (stock 90): after the
sale is updated to 25 the stock and the quantities sold still add up to 100. -/
theorem stock_conservation_witness :
    (((ReqEntero.actualizar 1 (some 25)).exec ejemploVenta).2.stock? 1).map
        (fun x => x + ((ReqEntero.actualizar 1 (some 25)).exec ejemploVenta).2.vendido 1)
      = some (90 + ejemploVenta.vendido 1) :=
  stock_conservation ejemploVenta (.actualizar 1 (some 25)) 1 90 (by decide) rfl

theorem stock_nonneg_map (l : List Producto) (id : Int) (a : Producto) (g : Int → Int)
    (hnd : (l.map (fun p => p.id)).Nodup) (hf : l.find? (fun p => p.id == id) = some a)
    (hg : 0 ≤ g a.stock) (h0 : ∀ p ∈ l, 0 ≤ p.stock) :
    ∀ p ∈ l.map (fun p => if p.id = id then { p with stock := g p.stock } else p),
      0 ≤ p.stock := by
  intro p hp
  obtain ⟨p0, hp0, rfl⟩ := List.mem_map.mp hp
  by_cases hid : p0.id = id
  · have ha : a ∈ l := List.mem_of_find?_eq_some hf
    have haid : a.id = id := by simpa using List.find?_some hf
    have heq : p0 = a := List.inj_on_of_nodup_map hnd hp0 ha (hid.trans haid.symm)
    rw [if_pos hid, heq]
    exact hg
  · rw [if_neg hid]
    exact h0 p0 hp0

theorem ids_map_stock (l : List Producto) (id : Int) (g : Int → Int) :
    (l.map (fun p => if p.id = id then { p with stock := g p.stock } else p)).map (fun p => p.id)
      = l.map (fun p => p.id) := by
  rw [List.map_map]
  apply List.map_congr_left
  intro p _
  dsimp only [Function.comp]
  split <;> rfl

/-- One integer-bodied request with no store error keeps the three facts together: product ids
distinct, every stock non-negative, every sale quantity positive. -/
theorem exec_preserves (s : Store) (r : ReqEntero)
    (hkey : (s.productos.map (fun p => p.id)).Nodup)
    (hstock : ∀ p ∈ s.productos, 0 ≤ p.stock)
    (hcant : ∀ v ∈ s.ventas, 0 < v.cantidad) :
    ((r.exec s).2.productos.map (fun p => p.id)).Nodup ∧
    (∀ p ∈ (r.exec s).2.productos, 0 ≤ p.stock) ∧
    (∀ v ∈ (r.exec s).2.ventas, 0 < v.cantidad) := by
  cases r with
  | registrar now producto_id cantidad =>
    rcases postVentas_cases s now producto_id cantidad with he | ⟨p, q, producto, hp, hq, hle, he⟩
    · rw [ReqEntero.exec, he]; exact ⟨hkey, hstock, hcant⟩
    · rw [ReqEntero.exec, he]
      refine ⟨?_, ?_, ?_⟩
      · show ((s.productos.map _).map _).Nodup
        rw [ids_map_stock s.productos p (fun x => x - q)]
        exact hkey
      · exact stock_nonneg_map s.productos p producto (fun x => x - q) hkey hp
          (sub_nonneg.mpr hle) hstock
      · intro v hv
        have hv' : v ∈ s.ventas ++ [(⟨s.seq + 1, p, q, now⟩ : Venta)] := hv
        rcases List.mem_append.mp hv' with h | h
        · exact hcant v h
        · rw [List.mem_singleton.mp h]; exact hq
  | actualizar id cantidad =>
    rcases putVentas_cases s id cantidad with he | ⟨q, venta, producto, hv, hp, hq, hle, he⟩
    · rw [ReqEntero.exec, he]; exact ⟨hkey, hstock, hcant⟩
    · rw [ReqEntero.exec, he]
      have hpid : producto.id = venta.producto_id := getProducto_id hp
      refine ⟨?_, ?_, ?_⟩
      · show ((s.productos.map _).map _).Nodup
        rw [ids_map_stock s.productos producto.id (fun x => x - (q - venta.cantidad))]
        exact hkey
      · exact stock_nonneg_map s.productos producto.id producto
          (fun x => x - (q - venta.cantidad)) hkey (hpid ▸ hp) (sub_nonneg.mpr hle) hstock
      · intro v hvm
        have hv' : v ∈ s.ventas.map
            (fun v => if v.id = id then { v with cantidad := q } else v) := hvm
        obtain ⟨v0, hv0, rfl⟩ := List.mem_map.mp hv'
        by_cases hid : v0.id = id
        · rw [if_pos hid]; exact hq
        · rw [if_neg hid]; exact hcant v0 hv0
  | eliminar id =>
    rcases deleteVentas_cases s id with he | ⟨venta, producto, hv, hp, he⟩
    · rw [ReqEntero.exec, he]; exact ⟨hkey, hstock, hcant⟩
    · rw [ReqEntero.exec, he]
      have hpid : producto.id = venta.producto_id := getProducto_id hp
      have hvq : 0 < venta.cantidad := hcant venta (getVenta_mem hv)
      have hps : 0 ≤ producto.stock := hstock producto (getProducto_mem hp)
      refine ⟨?_, ?_, ?_⟩
      · show ((s.productos.map _).map _).Nodup
        rw [ids_map_stock s.productos producto.id (fun x => x + venta.cantidad)]
        exact hkey
      · exact stock_nonneg_map s.productos producto.id producto
          (fun x => x + venta.cantidad) hkey (hpid ▸ hp) (by show 0 ≤ producto.stock + venta.cantidad; omega) hstock
      · intro v hvm
        have hv' : v ∈ s.ventas.filter (fun v => v.id != id) := hvm
        exact hcant v (List.mem_filter.mp hv').1

/-- Non-negative stock on integer bodies.  From any store in which product ids are
distinct (`id` is the primary key of `productos`), every stock is `≥ 0` and
every sale quantity is `> 0`, after any finite sequence of `POST /ventas`,
`PUT /ventas/:id` and `DELETE /ventas/:id` requests whose body fields are
integers or absent, each run to completion with no store error before the next starts,
every stock is still `≥ 0`. -/
theorem stock_never_negative (s : Store) (rs : List ReqEntero)
    (hkey : (s.productos.map (fun p => p.id)).Nodup)
    (hstock : ∀ p ∈ s.productos, 0 ≤ p.stock)
    (hcant : ∀ v ∈ s.ventas, 0 < v.cantidad) :
    ∀ p ∈ (runEntero rs s).productos, 0 ≤ p.stock := by
  induction rs generalizing s with
  | nil => exact hstock
  | cons r rs ih =>
    have h := exec_preserves s r hkey hstock hcant
    exact ih (r.exec s).2 h.1 h.2.1 h.2.2

/-- Non-negative stock on the seeded store, which has no sale: the whole stock of Paracetamol is sold
in two sales, the first is raised by more than is left (rejected), lowered, and
the second deleted; no stock is negative before or after. -/
theorem stock_never_negative_witness :
    seed.productos.all (fun p => decide (0 ≤ p.stock)) = true ∧
    seed.ventas = [] ∧
    (runEntero [.registrar 0 (some 1) (some 10), .registrar 1 (some 1) (some 90),
          .actualizar 1 (some 15), .actualizar 1 (some 4), .eliminar 2] seed).productos.all
      (fun p => decide (0 ≤ p.stock)) = true :=
  ⟨by decide, rfl,
    List.all_eq_true.mpr (fun p hp =>
      decide_eq_true (stock_never_negative seed _ (by decide) (by decide) (by decide) p hp))⟩

/-! ## The integer handlers are the handlers on integer bodies and cells -/

theorem getProducto_toJs (s : Store) (id : Int) :
    s.toJs.getProducto id = (s.getProducto id).map Producto.toJs := by
  unfold JsStore.getProducto Store.getProducto Store.toJs
  rw [List.find?_map]
  rfl

theorem getVenta_toJs (s : Store) (id : Int) :
    s.toJs.getVenta id = (s.getVenta id).map Venta.toJs := by
  unfold JsStore.getVenta Store.getVenta Store.toJs
  rw [List.find?_map]
  rfl

theorem insertVenta_toJs (s : Store) (p q : Int) (now : Nat) :
    (s.insertVenta p q now).toJs = s.toJs.insertVenta p (.int q) now := by
  simp [Store.toJs, Store.insertVenta, JsStore.insertVenta, Venta.toJs]

theorem restarStock_toJs (s : Store) (n id : Int) :
    (s.restarStock n id).toJs = s.toJs.restarStock (.int n) id := by
  simp only [Store.toJs, Store.restarStock, JsStore.restarStock, List.map_map]
  congr 1
  apply List.map_congr_left
  intro p _
  dsimp only [Function.comp]
  by_cases h : p.id = id
  · have h2 : (Producto.toJs p).id = id := h
    rw [if_pos h, if_pos h2]; rfl
  · have h2 : ¬ (Producto.toJs p).id = id := h
    rw [if_neg h, if_neg h2]

theorem sumarStock_toJs (s : Store) (n id : Int) :
    (s.sumarStock n id).toJs = s.toJs.sumarStock (.int n) id := by
  simp only [Store.toJs, Store.sumarStock, JsStore.sumarStock, List.map_map]
  congr 1
  apply List.map_congr_left
  intro p _
  dsimp only [Function.comp]
  by_cases h : p.id = id
  · have h2 : (Producto.toJs p).id = id := h
    rw [if_pos h, if_pos h2]; rfl
  · have h2 : ¬ (Producto.toJs p).id = id := h
    rw [if_neg h, if_neg h2]

theorem setCantidad_toJs (s : Store) (q id : Int) :
    (s.setCantidad q id).toJs = s.toJs.setCantidad (.int q) id := by
  simp only [Store.toJs, Store.setCantidad, JsStore.setCantidad, List.map_map]
  congr 1
  apply List.map_congr_left
  intro v _
  dsimp only [Function.comp]
  by_cases h : v.id = id
  · have h2 : (Venta.toJs v).id = id := h
    rw [if_pos h, if_pos h2]; rfl
  · have h2 : ¬ (Venta.toJs v).id = id := h
    rw [if_neg h, if_neg h2]

theorem deleteVenta_toJs (s : Store) (id : Int) :
    (s.deleteVenta id).toJs = s.toJs.deleteVenta id := by
  simp only [Store.toJs, Store.deleteVenta, JsStore.deleteVenta, List.filter_map]
  rfl

theorem toJs_nombre (p : Producto) : (Producto.toJs p).nombre = p.nombre := rfl

theorem toJs_id (p : Producto) : (Producto.toJs p).id = p.id := rfl

/-- On a store of integer cells and a body of integers or absent fields,
`postVentasJs` answers and leaves the store as `postVentas` does. -/
theorem postVentasJs_entero (fault : Option Nat) (now : Nat) (producto_id cantidad : Option Int)
    (s : Store) :
    (postVentas fault now producto_id cantidad s).1.toJs
      = some (postVentasJs fault now (JsVal.ofEntero producto_id) (JsVal.ofEntero cantidad)
          s.toJs).1 ∧
    (postVentas fault now producto_id cantidad s).2.toJs
      = (postVentasJs fault now (JsVal.ofEntero producto_id) (JsVal.ofEntero cantidad)
          s.toJs).2 := by
  cases producto_id with
  | none => simp [postVentas, postVentasJs, JsVal.ofEntero, JsVal.falsy, Resp.toJs]
  | some p =>
    cases cantidad with
    | none => simp [postVentas, postVentasJs, JsVal.ofEntero, JsVal.falsy, Resp.toJs]
    | some q =>
      by_cases hval : p = 0 ∨ q = 0 ∨ q ≤ 0
      · have hjs : ((JsVal.num p).falsy || (JsVal.num q).falsy || (JsVal.num q).le (.num 0))
            = true := by
          simp only [JsVal.falsy, JsVal.le, JsVal.toNumber, Bool.or_eq_true, beq_iff_eq,
            decide_eq_true_eq]
          rcases hval with h | h | h
          · exact Or.inl (Or.inl h)
          · exact Or.inl (Or.inr h)
          · exact Or.inr h
        simp [postVentas, postVentasJs, JsVal.ofEntero, hval, hjs, Resp.toJs]
      · have hjs : ((JsVal.num p).falsy || (JsVal.num q).falsy || (JsVal.num q).le (.num 0))
            = false := by
          simp only [not_or] at hval
          simp [JsVal.falsy, JsVal.le, JsVal.toNumber, hval.1, hval.2.1]
          exact lt_of_not_ge hval.2.2
        by_cases k0 : fault = some 0
        · simp [postVentas, postVentasJs, JsVal.ofEntero, hval, hjs, k0, Resp.toJs]
        · cases hg : s.getProducto p with
          | none =>
            simp [postVentas, postVentasJs, JsVal.ofEntero, hval, hjs, k0, hg,
              getProducto_toJs, Resp.toJs]
          | some producto =>
            have hlt : (Producto.toJs producto).stockJs.lt (.num q)
                = decide (producto.stock < q) := rfl
            by_cases hs : producto.stock < q
            · simp [postVentas, postVentasJs, JsVal.ofEntero, hval, hjs, k0, hg,
                getProducto_toJs, hlt, hs, Resp.toJs, toJs_nombre]
            · by_cases k1 : fault = some 1
              · simp [postVentas, postVentasJs, JsVal.ofEntero, hval, hjs, k0, hg,
                  getProducto_toJs, hlt, hs, k1, Resp.toJs]
              · by_cases k2 : fault = some 2
                · simp [postVentas, postVentasJs, JsVal.ofEntero, hval, hjs, k0, hg,
                    getProducto_toJs, hlt, hs, k1, k2, Resp.toJs, insertVenta_toJs, JsVal.bind]
                · simp [postVentas, postVentasJs, JsVal.ofEntero, hval, hjs, k0, hg,
                    getProducto_toJs, hlt, hs, k1, k2, Resp.toJs, insertVenta_toJs,
                    restarStock_toJs, JsVal.bind, toJs_nombre]

/-- On a store of integer cells, `deleteVentasJs` answers and leaves the store as
`deleteVentas` does. -/
theorem deleteVentasJs_entero (fault : Option Nat) (id : Int) (s : Store) :
    (deleteVentas fault id s).1.toJs = some (deleteVentasJs fault id s.toJs).1 ∧
    (deleteVentas fault id s).2.toJs = (deleteVentasJs fault id s.toJs).2 := by
  by_cases k0 : fault = some 0
  · simp [deleteVentas, deleteVentasJs, k0, Resp.toJs]
  · cases hv : s.getVenta id with
    | none => simp [deleteVentas, deleteVentasJs, k0, hv, getVenta_toJs, Resp.toJs]
    | some venta =>
      have hvp : (Venta.toJs venta).producto_id = venta.producto_id := rfl
      have hvc : (Venta.toJs venta).cantidad.toJs.bind = .int venta.cantidad := rfl
      by_cases k1 : fault = some 1
      · simp [deleteVentas, deleteVentasJs, k0, hv, getVenta_toJs, k1, Resp.toJs]
      · cases hg : s.getProducto venta.producto_id with
        | none =>
          simp [deleteVentas, deleteVentasJs, k0, hv, getVenta_toJs, k1, hvp, hg,
            getProducto_toJs, Resp.toJs]
        | some producto =>
          by_cases k2 : fault = some 2
          · simp [deleteVentas, deleteVentasJs, k0, hv, getVenta_toJs, k1, hvp, hg,
              getProducto_toJs, k2, Resp.toJs]
          · by_cases k3 : fault = some 3
            · simp [deleteVentas, deleteVentasJs, k0, hv, getVenta_toJs, k1, hvp, hg,
                getProducto_toJs, k2, k3, Resp.toJs, deleteVenta_toJs]
            · simp [deleteVentas, deleteVentasJs, k0, hv, getVenta_toJs, k1, hvp, hg,
                getProducto_toJs, k2, k3, Resp.toJs, deleteVenta_toJs, sumarStock_toJs,
                hvc, toJs_id]

/-- On a store of integer cells and a body whose `cantidad` is an integer or absent,
`putVentasJs` answers and leaves the store as `putVentas` does. -/
theorem putVentasJs_entero (fault : Option Nat) (id : Int) (cantidad : Option Int)
    (s : Store) :
    (putVentas fault id cantidad s).1.toJs
      = some (putVentasJs fault id (JsVal.ofEntero cantidad) s.toJs).1 ∧
    (putVentas fault id cantidad s).2.toJs
      = (putVentasJs fault id (JsVal.ofEntero cantidad) s.toJs).2 := by
  cases cantidad with
  | none => simp [putVentas, putVentasJs, JsVal.ofEntero, JsVal.falsy, Resp.toJs]
  | some q =>
    by_cases hval : q = 0 ∨ q ≤ 0
    · have hjs : ((JsVal.num q).falsy || (JsVal.num q).le (.num 0)) = true := by
        simp only [JsVal.falsy, JsVal.le, JsVal.toNumber, Bool.or_eq_true, beq_iff_eq,
          decide_eq_true_eq]
        exact hval
      simp [putVentas, putVentasJs, JsVal.ofEntero, hval, hjs, Resp.toJs]
    · have hjs : ((JsVal.num q).falsy || (JsVal.num q).le (.num 0)) = false := by
        simp only [not_or] at hval
        simp [JsVal.falsy, JsVal.le, JsVal.toNumber, hval.1]
        exact lt_of_not_ge hval.2
      by_cases k0 : fault = some 0
      · simp [putVentas, putVentasJs, JsVal.ofEntero, hval, hjs, k0, Resp.toJs]
      · cases hv : s.getVenta id with
        | none =>
          simp [putVentas, putVentasJs, JsVal.ofEntero, hval, hjs, k0, hv, getVenta_toJs,
            Resp.toJs]
        | some venta =>
          have hvp : (Venta.toJs venta).producto_id = venta.producto_id := rfl
          have hsub : (JsVal.num q).sub (Venta.toJs venta).cantidad.toJs
              = .num (q - venta.cantidad) := rfl
          by_cases k1 : fault = some 1
          · simp [putVentas, putVentasJs, JsVal.ofEntero, hval, hjs, k0, hv, getVenta_toJs,
              k1, Resp.toJs]
          · cases hg : s.getProducto venta.producto_id with
            | none =>
              simp [putVentas, putVentasJs, JsVal.ofEntero, hval, hjs, k0, hv,
                getVenta_toJs, k1, hvp, hg, getProducto_toJs, Resp.toJs]
            | some producto =>
              have hlt : (Producto.toJs producto).stockJs.lt (.num (q - venta.cantidad))
                  = decide (producto.stock < q - venta.cantidad) := rfl
              by_cases hs : producto.stock < q - venta.cantidad
              · simp [putVentas, putVentasJs, JsVal.ofEntero, hval, hjs, k0, hv,
                  getVenta_toJs, k1, hvp, hg, getProducto_toJs, hsub, hlt, hs, Resp.toJs]
              · by_cases k2 : fault = some 2
                · simp [putVentas, putVentasJs, JsVal.ofEntero, hval, hjs, k0, hv,
                    getVenta_toJs, k1, hvp, hg, getProducto_toJs, hsub, hlt, hs, k2,
                    Resp.toJs]
                · by_cases k3 : fault = some 3
                  · simp [putVentas, putVentasJs, JsVal.ofEntero, hval, hjs, k0, hv,
                      getVenta_toJs, k1, hvp, hg, getProducto_toJs, hsub, hlt, hs, k2, k3,
                      Resp.toJs, setCantidad_toJs, JsVal.bind]
                  · simp [putVentas, putVentasJs, JsVal.ofEntero, hval, hjs, k0, hv,
                      getVenta_toJs, k1, hvp, hg, getProducto_toJs, hsub, hlt, hs, k2, k3,
                      Resp.toJs, setCantidad_toJs, restarStock_toJs, JsVal.bind, toJs_id]

/-- One integer-bodied request on a store of integer cells: the handlers on any body
leave the store the integer handlers leave. -/
theorem exec_toJs (r : ReqEntero) (s : Store) :
    (r.toReq.exec s.toJs).2 = (r.exec s).2.toJs := by
  cases r with
  | registrar now producto_id cantidad =>
    exact (postVentasJs_entero none now producto_id cantidad s).2.symm
  | actualizar id cantidad => exact (putVentasJs_entero none id cantidad s).2.symm
  | eliminar id => exact (deleteVentasJs_entero none id s).2.symm

theorem run_toJs (rs : List ReqEntero) (s : Store) :
    run (rs.map ReqEntero.toReq) s.toJs = (runEntero rs s).toJs := by
  induction rs generalizing s with
  | nil => rfl
  | cons r rs ih =>
    simp only [List.map_cons, run, runEntero, List.foldl_cons]
    rw [exec_toJs]
    exact ih (r.exec s).2

/-- Non-negative stock, for the handlers on any body: from a store of integer cells
with distinct product ids, every stock `≥ 0` and every sale quantity `> 0`, a
sequence of requests whose body fields are all integers or absent leaves every
stock an integer `≥ 0`. -/
theorem run_entero_stock_nonneg (s : Store) (rs : List ReqEntero)
    (hkey : (s.productos.map (fun p => p.id)).Nodup)
    (hstock : ∀ p ∈ s.productos, 0 ≤ p.stock)
    (hcant : ∀ v ∈ s.ventas, 0 < v.cantidad) :
    ∀ p ∈ (run (rs.map ReqEntero.toReq) s.toJs).productos, ∃ n, p.stock = some n ∧ 0 ≤ n := by
  intro p hp
  rw [run_toJs] at hp
  obtain ⟨p0, hp0, rfl⟩ := List.mem_map.mp hp
  exact ⟨p0.stock, rfl, stock_never_negative s rs hkey hstock hcant p0 hp0⟩

/-! ## Quantities that are strings -/

/-- C1, at the failing input.  On the seeded store (every stock `≥ 0`, no sale) the one
request `POST /ventas {"producto_id": 1, "cantidad": "1000abc"}`, with no store
error, is answered 200 `Venta registrada`: the string is truthy, and
`"1000abc" <= 0` and `100 < "1000abc"` are comparisons with `NaN`, so both are
false.  The `UPDATE` then computes `100 - '1000abc'` in SQL, and the stock of
Paracetamol is -900. -/
theorem stock_negative_after_text_quantity :
    seed.toJs.stock? 1 = some (some 100) ∧
    seed.toJs.ventas.length = 0 ∧
    ((Req.registrar 0 (.num 1) (.str texto1000abc)).exec seed.toJs).1.status = 200 ∧
    (run [.registrar 0 (.num 1) (.str texto1000abc)] seed.toJs).stock? 1
      = some (some (-900)) ∧
    (run [.registrar 0 (.num 1) (.str texto1000abc)] seed.toJs).cantidades 1
      = [.text texto1000abc] :=
  ⟨rfl, rfl, rfl, rfl, rfl⟩

/-- C2, at the failing input.  From the seeded store, `POST /ventas
{"producto_id": 1, "cantidad": 10}` leaves Paracetamol with stock 90 and one sale
of 10, so stock plus quantities sold is 100.  The request
`PUT /ventas/1 {"cantidad": "5abc"}`, with no store error, is then answered 200
`Venta actualizada`: `diferencia = "5abc" - 10` is `NaN` and `90 < NaN` is false.
The sale then holds the text `5abc`, and the `UPDATE` of the stock binds `NaN`,
which SQLite takes as `NULL`: the stock of Paracetamol is `NULL`, and stock plus
quantities sold is 100 no more. -/
theorem stock_null_after_text_update :
    (run [.registrar 0 (.num 1) (.num 10)] seed.toJs).stock? 1 = some (some 90) ∧
    (run [.registrar 0 (.num 1) (.num 10)] seed.toJs).cantidades 1 = [.int 10] ∧
    ((Req.actualizar 1 (.str texto5abc)).exec
        (run [.registrar 0 (.num 1) (.num 10)] seed.toJs)).1.status = 200 ∧
    (run [.registrar 0 (.num 1) (.num 10), .actualizar 1 (.str texto5abc)] seed.toJs).stock? 1
      = some none ∧
    (run [.registrar 0 (.num 1) (.num 10), .actualizar 1 (.str texto5abc)]
        seed.toJs).cantidades 1 = [.text texto5abc] :=
  ⟨rfl, rfl, rfl, rfl, rfl⟩

end NovaSalud
